import Mathlib

/-! Call-app: IVR call-control service and softphone client.

A shallow embedding of `backend/server.js` (the Express call-control service) and of the
call bookkeeping of `client/src/App.jsx` (the softphone client), with the properties of the
specification stated and proved over it.

Conventions of the embedding.

* A request handler is a function of the request (and of `process.env` and the provider
  where it uses them). The service keeps no state between requests, so nothing else is an
  input. `console.log` output is not part of the model.
* A voice document (`VoiceResponse`) is the list of verbs appended to it, in order.
* Calls into the provider (`client.calls.create`, `AccessToken#toJwt`) are parameters of the
  handler; every invocation is recorded next to the response.
-/

namespace CallApp

/-! ## JavaScript values as the handlers observe them -/

/-- A value read from a request (`req.body.X`, `req.query.X`). A missing field reads as
`undefined`. A string is kept as it is. Every other value (number, boolean, `null`, array,
object) is represented by the two observations the handlers can make of it: its truthiness
(`ToBoolean`) and its string conversion (`ToString`). The conversion of an object can throw:
a JSON body can carry an object whose own `toString` is not a function, such as
`{"toString": 1}`; `text` is `none` for such a value. -/
inductive JsVal
  | undefined
  | str (s : String)
  | other (truthy : Bool) (text : Option String)
  deriving DecidableEq

namespace JsVal

/-- ECMAScript `ToBoolean`: `undefined` and the empty string are falsy. -/
def toBoolean : JsVal → Bool
  | undefined => false
  | str s => decide (s ≠ "")
  | other truthy _ => truthy

/-- ECMAScript `ToString`, as used by template literals and by `parseInt`. It throws a
`TypeError` for an object that no callable `toString` or `valueOf` turns into a primitive. -/
def toStr : JsVal → Except String String
  | undefined => .ok "undefined"
  | str s => .ok s
  | other _ (some text) => .ok text
  | other _ none => .error "TypeError: Cannot convert object to primitive value"

/-- The comparison `v === "lit"` against a string literal: true only for that very string. -/
def strictEq (v : JsVal) (lit : String) : Bool :=
  match v with
  | str s => decide (s = lit)
  | _ => false

/-- The expression `a || b`. -/
def or (a b : JsVal) : JsVal :=
  if a.toBoolean then a else b

end JsVal

/-- The class `StrWhiteSpaceChar` of ECMAScript (white space and line terminators): the characters
skipped by `parseInt` and removed by `String.prototype.trim`. -/
def isStrWhiteSpaceChar (c : Char) : Bool :=
  c.toNat ∈ [0x09, 0x0A, 0x0B, 0x0C, 0x0D, 0x20, 0xA0, 0x1680, 0x2028, 0x2029, 0x202F,
    0x205F, 0x3000, 0xFEFF] || (0x2000 ≤ c.toNat && c.toNat ≤ 0x200A)

/-- Value of a character as a digit in the given radix (10 or 16), if it is one. -/
def digitValue (radix : Nat) (c : Char) : Option Nat :=
  let v : Option Nat :=
    if 48 ≤ c.toNat ∧ c.toNat ≤ 57 then some (c.toNat - 48)
    else if 97 ≤ c.toNat ∧ c.toNat ≤ 122 then some (c.toNat - 97 + 10)
    else if 65 ≤ c.toNat ∧ c.toNat ≤ 90 then some (c.toNat - 65 + 10)
    else none
  match v with
  | some d => if d < radix then some d else none
  | none => none

/-- The longest run of radix digits at the start of the input, as digit values. -/
def takeDigits (radix : Nat) : List Char → List Nat
  | [] => []
  | c :: cs =>
    match digitValue radix c with
    | some d => d :: takeDigits radix cs
    | none => []

/-- Value of a run of digits, most significant first. -/
def digitsValue (radix : Nat) (ds : List Nat) : Nat :=
  ds.foldl (fun acc d => acc * radix + d) 0

/-- The built-in `parseInt(string)` with no radix argument, on the characters of the string:
leading white space is skipped, one sign is read, a `0x`/`0X` marker selects radix 16, and
the longest run of digits is the value. `none` stands for `NaN` (no digit was read). The
result is the mathematical integer; the code only tests its sign. -/
def parseIntChars (cs : List Char) : Option Int :=
  let s := cs.dropWhile isStrWhiteSpaceChar
  let signed : Int × List Char :=
    match s with
    | '-' :: t => (-1, t)
    | '+' :: t => (1, t)
    | _ => (1, s)
  let based : Nat × List Char :=
    match signed.2 with
    | '0' :: 'x' :: t => (16, t)
    | '0' :: 'X' :: t => (16, t)
    | _ => (10, signed.2)
  let z := takeDigits based.1 based.2
  if z = [] then none else some (signed.1 * (digitsValue based.1 z : Int))

/-- The call `parseInt(v)`: the argument is converted with `ToString` first, which can
throw. -/
def parseInt (v : JsVal) : Except String (Option Int) :=
  match v.toStr with
  | .ok inputString => .ok (parseIntChars inputString.data)
  | .error e => .error e

/-- The comparison `n > 0` on a number; `NaN > 0` is false. -/
def gtZero : Option Int → Bool
  | some n => decide (0 < n)
  | none => false

/-! ## Requests, environment, voice documents -/

/-- An Express request: the parsed body and the parsed query string, each read by field
name. The body parsers leave an object in `req.body`, so reading a field never throws. -/
structure Request where
  body : String → JsVal
  query : String → JsVal

/-- The object `process.env`: a variable is a string or is not set. -/
abbrev Env := String → Option String

/-- A verb of a voice document. `gather` nests the texts spoken inside it; `dial` nests the
client identities added with `dial.client(...)`. -/
inductive Verb
  | say (text : String)
  | gather (numDigits : Nat) (action : String) (texts : List String)
  | dial (timeout : Nat) (action : String) (clients : List String)
  | redirect (url : String)
  deriving DecidableEq

/-- What a webhook handler sends: `res.type(...)` and the document of `res.send(twiml.toString())`. -/
structure XmlResponse where
  contentType : String
  twiml : List Verb
  deriving DecidableEq

/-- Whether a verb is a dial instruction. -/
def Verb.isDial : Verb → Bool
  | .dial _ _ _ => true
  | _ => false

/-- Whether a verb is a redirect. -/
def Verb.isRedirect : Verb → Bool
  | .redirect _ => true
  | _ => false

/-- The client identities a document dials, in order. -/
def dialedClients : List Verb → List String
  | [] => []
  | .dial _ _ clients :: vs => clients ++ dialedClients vs
  | _ :: vs => dialedClients vs

/-! ## Webhook handlers of `server.js` -/

/-- Handler of `app.post("/incoming-call")`: the one-digit menu. -/
def incomingCall (_req : Request) : XmlResponse :=
  { contentType := "text/xml",
    twiml := [.gather 1 "/handle-key"
      ["Welcome to the IVR system. Press 1 for support. Press 2 for sales."]] }

/-- Handler of `app.post("/handle-key")`: the menu handler. -/
def handleKey (req : Request) : XmlResponse :=
  let digit := req.body "Digits"
  let twiml : List Verb :=
    if digit.strictEq "1" then
      [.say "Connecting to support. Please wait while we connect you to an agent.",
       .dial 30 "/call-status?department=support" ["user-support"]]
    else if digit.strictEq "2" then
      [.say "Connecting to sales. Please wait while we connect you to a sales representative.",
       .dial 30 "/call-status?department=sales" ["user-sales"]]
    else
      [.say "Invalid choice. Please try again.",
       .redirect "/incoming-call"]
  { contentType := "text/xml", twiml := twiml }

/-- Handler of `app.post("/call-status")`: the dial-status callback. `DialCallSid` and the
`department` query parameter are read (and logged) but take no part in the document. The
result is the document sent, or the exception the handler throws, in which case it sends no
document. In `dialCallDuration && parseInt(dialCallDuration) > 0` the call of `parseInt` is
evaluated only for a truthy duration; the template literal converts the duration again. -/
def callStatus (req : Request) : Except String XmlResponse :=
  let dialCallStatus := req.body "DialCallStatus"
  let dialCallDuration := req.body "DialCallDuration"
  let _dialCallSid := req.body "DialCallSid"
  let _department := (req.query "department").or (.str "support")
  let twiml : Except String (List Verb) :=
    if dialCallStatus.strictEq "completed" || dialCallStatus.strictEq "answered" then
      if dialCallDuration.toBoolean then
        match parseInt dialCallDuration with
        | .error e => .error e
        | .ok n =>
          if gtZero n then
            match dialCallDuration.toStr with
            | .error e => .error e
            | .ok text =>
              .ok [.say ("Thank you for calling. The call lasted " ++ text
                ++ " seconds. Goodbye.")]
          else
            .ok [.say "Thank you for calling. Goodbye."]
      else
        .ok [.say "Thank you for calling. Goodbye."]
    else if dialCallStatus.strictEq "no-answer" then
      .ok [.say "Sorry, the agent did not answer. Please make sure the app is open and try again later."]
    else if dialCallStatus.strictEq "busy" then
      .ok [.say "Sorry, the agent is busy at the moment. Please try again later."]
    else if dialCallStatus.strictEq "failed" then
      .ok [.say "The call could not be completed. Please make sure the app is open and registered, then try again."]
    else if dialCallStatus.strictEq "canceled" then
      .ok [.say "The call was canceled. Please try again."]
    else
      .ok [.say "The call has ended. Thank you for calling."]
  match twiml with
  | .ok verbs => .ok { contentType := "text/xml", twiml := verbs }
  | .error e => .error e

/-- Handler of `app.post("/outgoing-ivr")`: the greeting document. -/
def outgoingIvr (_req : Request) : XmlResponse :=
  { contentType := "text/xml",
    twiml := [.say "Hello! This is an outgoing call from your IVR."] }

/-! ## JSON endpoints of `server.js` -/

/-- The grant built by `new VoiceGrant(...)` in the credential endpoint. -/
structure VoiceGrant where
  outgoingApplicationSid : Option String
  incomingAllow : Bool
  deriving DecidableEq

/-- The token object built by `new AccessToken(accountSid, keySid, secret, { identity })`
followed by `addGrant`. -/
structure AccessToken where
  accountSid : Option String
  keySid : Option String
  secret : Option String
  identity : JsVal
  grants : List VoiceGrant
  deriving DecidableEq

/-- The body of `res.send({ token: jwtToken, identity })`. -/
structure TokenBody where
  token : String
  identity : JsVal
  deriving DecidableEq

/-- What the credential endpoint did: the token objects it asked the library to sign, and
the body it sent (`none` when the library threw, in which case the handler sends nothing). -/
structure TokenOutcome where
  minted : List AccessToken
  response : Option TokenBody
  deriving DecidableEq

/-- Handler of `app.get("/token")`. `toJwt` is the library call that signs the token object;
it yields the signed string or throws. -/
def token (env : Env) (toJwt : AccessToken → Except String String) (req : Request) :
    TokenOutcome :=
  let identity := (req.query "identity").or (.str "user-support")
  let voiceGrant : VoiceGrant :=
    { outgoingApplicationSid := env "TWILIO_TWIML_APP_SID", incomingAllow := true }
  let tok : AccessToken :=
    { accountSid := env "TWILIO_ACCOUNT_SID",
      keySid := env "TWILIO_API_KEY",
      secret := env "TWILIO_API_SECRET",
      identity := identity,
      grants := [voiceGrant] }
  match toJwt tok with
  | .ok jwtToken => { minted := [tok], response := some { token := jwtToken, identity := identity } }
  | .error _ => { minted := [tok], response := none }

/-- The argument of `client.calls.create({ to, from, url })`. -/
structure CallCreateArgs where
  «to» : JsVal
  «from» : String
  url : String
  deriving DecidableEq

/-- The fields the handler reads of the call the provider created. -/
structure CallInstance where
  sid : JsVal
  status : JsVal
  direction : JsVal
  deriving DecidableEq

/-- A JSON body sent by `POST /call`. -/
inductive CallBody
  | error (message : JsVal)
  | created (callSid status direction : JsVal)
  deriving DecidableEq

/-- What `POST /call` did: the HTTP status and body it sent, and the arguments of every
invocation of the provider's call creation, in order. -/
structure CallOutcome where
  status : Nat
  body : CallBody
  created : List CallCreateArgs
  deriving DecidableEq

/-- Handler of `app.post("/call")`. `create` is `client.calls.create`: it resolves to the
created call or rejects with an error whose `message` is given. -/
def call (env : Env) (create : CallCreateArgs → Except JsVal CallInstance) (req : Request) :
    CallOutcome :=
  let «to» := req.body "to"
  if !«to».toBoolean then
    { status := 400, body := .error (.str "Missing 'to' parameter"), created := [] }
  else
    match env "TWILIO_NUMBER" with
    | none =>
      { status := 500, body := .error (.str "Server configuration error: TWILIO_NUMBER not set"),
        created := [] }
    | some twilioNumber =>
      if twilioNumber = "" then
        { status := 500, body := .error (.str "Server configuration error: TWILIO_NUMBER not set"),
          created := [] }
      else
        let args : CallCreateArgs :=
          { «to» := «to», «from» := twilioNumber,
            url := "https://unfaintly-hideless-zuri.ngrok-free.dev/outgoing-ivr" }
        match create args with
        | .ok c =>
          { status := 200, body := .created c.sid c.status c.direction, created := [args] }
        | .error message =>
          { status := 500, body := .error message, created := [args] }

/-! ## Inputs used to state the properties -/

/-- An object with the given fields, read by name; a field that is not listed reads as
`undefined`. -/
def fields (kvs : List (String × JsVal)) : String → JsVal :=
  fun k => (kvs.lookup k).getD .undefined

/-- A request value is present when it is not missing and not the empty string; a value that
is not a string counts as present when JavaScript treats it as true. -/
def present : JsVal → Prop
  | .undefined => False
  | .str s => s ≠ ""
  | .other truthy _ => truthy = true

/-- A string is a decimal numeral when it is not empty and all its characters are digits. -/
def isDecimalNumeral (s : String) : Prop :=
  s.data ≠ [] ∧ ∀ c ∈ s.data, 48 ≤ c.toNat ∧ c.toNat ≤ 57

/-- The integer a decimal numeral denotes. -/
def decimalValue (s : String) : Nat :=
  s.data.foldl (fun acc c => acc * 10 + (c.toNat - 48)) 0

/-- Presence of a request value can be decided. -/
instance present.decidable : (v : JsVal) → Decidable (present v)
  | .undefined => isFalse (fun h => h)
  | .str s => inferInstanceAs (Decidable (s ≠ ""))
  | .other truthy _ => inferInstanceAs (Decidable (truthy = true))

/-- The dial-status callback with the JSON body
`{"DialCallStatus": "completed", "DialCallDuration": {"toString": 1}}`: the duration is an
object, so it is truthy, and its string conversion throws. -/
def throwingDurationRequest : Request :=
  { body := fields [("DialCallStatus", .str "completed"), ("DialCallDuration", .other true none)],
    query := fields [] }

/-- A token library that signs a token for a string identity. -/
def sampleToJwt : AccessToken → Except String String :=
  fun tok =>
    match tok.identity with
    | .str identity => .ok ("jwt:" ++ identity)
    | _ => .error "identity is required to be a string"

/-! ## The softphone client (`App.jsx`)

The component state (`useState` cells and the `callHandledRef` ref) is one record. An
operation of the component is a function from the state before to the state after; state
setters take effect in the order they are called. What the operation asks of the outside
world (alerts, requests to the service, calls into the Device and into call handles) is
appended to `effects`, listeners registered on call handles are kept in `subscriptions`, and
pending `setTimeout`/`setInterval` callbacks in `timers`.

The provider is the environment: it decides when a handle emits an event (`fire`), when a
pending timer is due (`runTimer`), what a call into it returns or throws, and what the
`status` of a handle reads at the time of a poll. The effects React runs after a render are
the function `render`. -/

/-- The credential request of `initializeDevice`: the URL given to `axios.get`. -/
def tokenUrl : String :=
  "https://unfaintly-hideless-zuri.ngrok-free.dev/token?identity=user-support"

/-- Pieces of a character list between occurrences of a separator. -/
def splitAt (sep : Char) : List Char → List (List Char)
  | [] => [[]]
  | c :: cs =>
    if c = sep then [] :: splitAt sep cs
    else
      match splitAt sep cs with
      | [] => [[c]]
      | piece :: rest => (c :: piece) :: rest

/-- The query object the service parses from a URL: the part after the first `?`, split at
`&` into `name=value` fields. Percent-decoding is left out; the URLs of this program have no
escapes. -/
def queryOf (url : String) : String → JsVal :=
  let qs := (url.data.dropWhile (fun c => c ≠ '?')).drop 1
  let pieces := (splitAt '&' qs).filter (fun p => p ≠ [])
  fields (pieces.map (fun p =>
    (String.mk (p.takeWhile (fun c => c ≠ '=')),
     JsVal.str (String.mk ((p.dropWhile (fun c => c ≠ '=')).drop 1)))))

/-- The request `GET /token?identity=user-support` as the service receives it. -/
def initializeDeviceRequest : Request :=
  { body := fields [], query := queryOf tokenUrl }

/-- The method `String.prototype.trim`: white space is removed at both ends. -/
def jsTrim (s : String) : String :=
  String.mk (((s.data.dropWhile isStrWhiteSpaceChar).reverse.dropWhile
    isStrWhiteSpaceChar).reverse)

/-- A call handle (the provider's `Call` object) as the client observes it: an identity, the
value of its `status` property, and which capabilities are functions on it. -/
structure CallHandle where
  id : Nat
  status : JsVal := .undefined
  hasOn : Bool := true
  hasAddEventListener : Bool := false
  hasDisconnect : Bool := true
  hasHangup : Bool := false
  hasReject : Bool := true
  parametersFrom : Option String := none
  «from» : Option String := none
  parametersCaller : Option String := none
  deriving DecidableEq

/-- The provider's `Device` object as the client observes it. `calls` is `device.calls` when
that is an array. -/
structure Device where
  hasDisconnectAll : Bool := true
  hasDisconnect : Bool := false
  calls : Option (List CallHandle) := none
  deriving DecidableEq

/-- The listeners the client registers on a call handle, one constructor per closure of
`App.jsx`. -/
inductive Listener
  /-- Listener of `handleCall` for `"accept"`: `setCallStatus("connected")`. -/
  | attachAccept
  /-- Listener of `handleCall` for `"disconnect"`, `"cancel"`, `"reject"`: reset the handled flag and defer
  the clearing of the active call. -/
  | attachEnd
  /-- Listener of `handleCall` for `"error"`: as `attachEnd`, then an alert. -/
  | attachError
  /-- The closure `cleanupInterval` of `handleCall`: `clearInterval(statusCheckInterval)`. -/
  | cleanupInterval (timer : Nat)
  /-- Listener of `handleCall` given to `addEventListener("accept")`. -/
  | fallbackAccept
  /-- Listener of `handleCall` given to `addEventListener("disconnect")`. -/
  | fallbackEnd
  /-- Listener of the `"incoming"` handler for `"accept"`: `setCallStatus("connected")`. -/
  | incomingAccept
  /-- Listener of the `"incoming"` handler for `"disconnect"`: reset the handled flag and defer
  the clearing of the active call. -/
  | incomingEnd
  /-- Listener of the `"incoming"` handler for `"error"`: as `incomingEnd`, then an alert. -/
  | incomingError
  deriving DecidableEq

/-- One registration `call.on(event, listener)` or `call.addEventListener(event, listener)`. -/
structure Subscription where
  call : Nat
  event : String
  listener : Listener
  deriving DecidableEq

/-- The callbacks the client hands to `setTimeout` and `setInterval`. -/
inductive Callback
  /-- The deferred clearing `() => { setActiveCall(null); setCallStatus("") }`. -/
  | deferredClear
  /-- The status poll installed by `handleCall` on the given handle. -/
  | statusCheck (call : CallHandle)
  /-- The auto-reject callback the `"incoming"` handler sets for the given handle. -/
  | autoReject (call : CallHandle)
  /-- The delayed callback of `acceptIncomingCall`: `handleCall(incomingCall)` and the clearing
  of the incoming fields. -/
  | acceptSettle (call : CallHandle)
  /-- The liveness poll `checkCall` of the effect on `activeCall`, for the given handle. -/
  | checkCall (call : CallHandle)
  deriving DecidableEq

/-- A pending timer: its id, its delay in milliseconds, whether it repeats, its callback. -/
structure Scheduled where
  id : Nat
  delay : Nat
  repeating : Bool
  task : Callback
  deriving DecidableEq

/-- What the client asks of the outside world. -/
inductive Effect
  /-- The call `alert(message)`. -/
  | alert (message : String)
  /-- The call `axios.post(".../call", { to })`: the request to the Call-Control Service. -/
  | postCall (url : String) (number : String)
  /-- The call `device.connect({ params: { To } })`. -/
  | connect (number : String)
  /-- The call `axios.get(url)` of `initializeDevice`. -/
  | getToken (url : String)
  /-- The call `dev.register()`. -/
  | deviceRegister
  /-- The call `dev.destroy()`. -/
  | deviceDestroy
  /-- The call `call.accept()` on the handle with the given id. -/
  | callAccept (call : Nat)
  /-- The call `call.reject()` on the handle with the given id. -/
  | callReject (call : Nat)
  /-- The call `call.disconnect()` on the handle with the given id. -/
  | callDisconnect (call : Nat)
  /-- The call `call.hangup()` on the handle with the given id. -/
  | callHangup (call : Nat)
  /-- The call `device.disconnectAll()`. -/
  | deviceDisconnectAll
  /-- The call `device.disconnect(activeCall)`. -/
  | deviceDisconnect (call : Nat)
  deriving DecidableEq

/-- The state of the component. The defaults are the initial values of `App`. Timer ids are
positive, as in a browser. `callTimeout` holds the `_timeout` property the client writes on
call objects, by handle id, latest first. -/
structure Client where
  device : Option Device := none
  deviceReady : Bool := false
  deviceError : Option String := none
  number : String := ""
  activeCall : Option CallHandle := none
  callStatus : String := ""
  incomingCall : Option CallHandle := none
  incomingCallerId : String := ""
  callHandled : Bool := false
  subscriptions : List Subscription := []
  timers : List Scheduled := []
  nextTimer : Nat := 1
  effects : List Effect := []
  callTimeout : List (Nat × Nat) := []
  deriving DecidableEq

namespace Client

/-- Record a request to the outside world. -/
def emit (s : Client) (e : Effect) : Client :=
  { s with effects := s.effects ++ [e] }

/-- Register a listener on a call handle. -/
def subscribe (s : Client) (call : CallHandle) (event : String) (l : Listener) : Client :=
  { s with subscriptions := s.subscriptions ++ [{ call := call.id, event := event, listener := l }] }

/-- The call `setInterval(task, delay)`; the id returned is `s.nextTimer`. -/
def setInterval (s : Client) (task : Callback) (delay : Nat) : Client :=
  { s with
    timers := s.timers ++ [{ id := s.nextTimer, delay := delay, repeating := true, task := task }],
    nextTimer := s.nextTimer + 1 }

/-- The call `setTimeout(task, delay)`; the id returned is `s.nextTimer`. -/
def setTimeout (s : Client) (task : Callback) (delay : Nat) : Client :=
  { s with
    timers := s.timers ++ [{ id := s.nextTimer, delay := delay, repeating := false, task := task }],
    nextTimer := s.nextTimer + 1 }

/-- The calls `clearTimeout(id)` and `clearInterval(id)`. -/
def clearTimer (s : Client) (id : Nat) : Client :=
  { s with timers := s.timers.filter (fun t => t.id ≠ id) }

end Client

/-- The callback `handleCall(call)`: attach the client to a call handle. `none` is a missing
(falsy) argument. -/
def handleCall (s : Client) (call : Option CallHandle) : Client :=
  match call with
  | none => s
  | some call =>
    if s.callHandled then s
    else
      let s := { s with
        callHandled := true,
        activeCall := some call,
        callStatus :=
          if call.status.strictEq "open" || call.status.strictEq "connected" then "connected"
          else "ringing" }
      if call.hasOn then
        let s := s.subscribe call "accept" .attachAccept
        let s := s.subscribe call "disconnect" .attachEnd
        let s := s.subscribe call "cancel" .attachEnd
        let s := s.subscribe call "reject" .attachEnd
        let s := s.subscribe call "error" .attachError
        if call.status ≠ .undefined then
          let statusCheckInterval := s.nextTimer
          let s := s.setInterval (.statusCheck call) 1000
          let s := s.subscribe call "disconnect" (.cleanupInterval statusCheckInterval)
          let s := s.subscribe call "cancel" (.cleanupInterval statusCheckInterval)
          let s := s.subscribe call "error" (.cleanupInterval statusCheckInterval)
          s
        else s
      else if call.hasAddEventListener then
        let s := s.subscribe call "accept" .fallbackAccept
        let s := s.subscribe call "disconnect" .fallbackEnd
        s
      else s

/-- What `device.connect(...)` gave back: a call object, something that is not an object
(`undefined`, `null`), or an exception with the given message. -/
inductive ConnectResult
  | call (c : CallHandle)
  | nothing
  | threw (message : String)
  deriving DecidableEq

/-- The operation `makeCall()`. `backendResponse` is the outcome of the request to the
service (a failure is only logged) and `connected` the outcome of `device.connect`. -/
def makeCall (s : Client) (backendResponse : Except String Unit) (connected : ConnectResult) :
    Client :=
  if s.device.isNone || !s.deviceReady then
    s.emit (.alert "Device not ready. Please wait for device initialization.")
  else if s.activeCall.isSome then
    s.emit (.alert "A call is already active. Please disconnect the current call first.")
  else if jsTrim s.number = "" then
    s.emit (.alert "Please enter a number to call.")
  else
    let s := s.emit (.postCall "https://unfaintly-hideless-zuri.ngrok-free.dev/call" s.number)
    let s :=
      match backendResponse with
      | .ok _ => s
      | .error _ => s
    let s := s.emit (.connect s.number)
    match connected with
    | .call c => handleCall { s with callHandled := false } (some c)
    | .nothing => { s with callHandled := false, callStatus := "ringing" }
    | .threw message =>
      { s.emit (.alert ("Failed to make call: " ++ message)) with callStatus := "" }

/-- The statements shared by every terminal handler of `App.jsx`:
`callHandledRef.current = false` and
`setTimeout(() => { setActiveCall(null); setCallStatus("") }, 0)`. -/
def endCall (s : Client) : Client :=
  ({ s with callHandled := false }).setTimeout .deferredClear 0

/-- Whether a listener writes component state (a `useState` cell or the handled flag);
`cleanupInterval` only clears a timer. -/
def Listener.changesState : Listener → Bool
  | .cleanupInterval _ => false
  | _ => true

/-- Run one listener. `message` is `error.message` of the event, read by the error listeners. -/
def runListener (s : Client) (l : Listener) (message : String) : Client :=
  match l with
  | .attachAccept => { s with callStatus := "connected" }
  | .attachEnd => endCall s
  | .attachError => (endCall s).emit (.alert ("Call error: " ++ message))
  | .cleanupInterval timer => s.clearTimer timer
  | .fallbackAccept => { s with callStatus := "connected" }
  | .fallbackEnd => endCall s
  | .incomingAccept => { s with callStatus := "connected" }
  | .incomingEnd => endCall s
  | .incomingError => (endCall s).emit (.alert ("Call error: " ++ message))

/-- The listeners registered on a handle for an event, in the order of registration. -/
def listenersOf (s : Client) (call : Nat) (event : String) : List Listener :=
  (s.subscriptions.filter (fun sub => sub.call = call ∧ sub.event = event)).map
    (fun sub => sub.listener)

/-- The handle with the given id emits an event: its listeners run in the order of
registration. -/
def fire (s : Client) (call : Nat) (event : String) (message : String) : Client :=
  (listenersOf s call event).foldl (fun st l => runListener st l message) s

/-- The test of the status poll of `handleCall` for an ended call (lines 108-112). -/
def statusCheckEnded (currentStatus : JsVal) : Bool :=
  currentStatus.strictEq "closed" || currentStatus.strictEq "completed" ||
    currentStatus.strictEq "failed" || currentStatus.strictEq "canceled" ||
    currentStatus.strictEq "disconnected"

/-- The test of the liveness poll `checkCall` for an ended call (lines 299-304). -/
def checkCallEnded (status : JsVal) : Bool :=
  status.strictEq "closed" || status.strictEq "completed" || status.strictEq "failed" ||
    status.strictEq "canceled" || status.strictEq "disconnected" || status.strictEq "ended"

/-- One run of the status poll of `handleCall` with timer id `timer`. `read` is what reading
`call.status` gives now; `none` when the read throws. -/
def statusCheckTick (s : Client) (timer : Nat) (read : Option JsVal) : Client :=
  match read with
  | none => s.clearTimer timer
  | some currentStatus =>
    if currentStatus ≠ .undefined then
      if statusCheckEnded currentStatus then endCall (s.clearTimer timer)
      else s
    else s.clearTimer timer

/-- One run of the liveness poll `checkCall` with timer id `timer`. The closure compares
`activeCall` with `currentCall`, both the handle the effect captured, so the test of the
first branch is true. `read` is what reading `currentCall.status` gives now; `none` when the
read throws. -/
def checkCallTick (s : Client) (timer : Nat) (read : Option JsVal) : Client :=
  match read with
  | none => endCall (s.clearTimer timer)
  | some status =>
    if checkCallEnded status then endCall (s.clearTimer timer)
    else s

/-- A pending timer fires. A timeout is spent when it fires; an interval stays. `read` is the
status the handle of a poll shows now, and `rejected` the outcome of `call.reject()` in the
auto-reject callback (an exception is caught and logged). -/
def runTimer (s : Client) (t : Scheduled) (read : Option JsVal) (rejected : Except String Unit) :
    Client :=
  let s := if t.repeating then s else s.clearTimer t.id
  match t.task with
  | .deferredClear => { s with activeCall := none, callStatus := "" }
  | .statusCheck _ => statusCheckTick s t.id read
  | .autoReject call =>
    let s := s.emit (.callReject call.id)
    let s :=
      match rejected with
      | .ok _ => s
      | .error _ => s
    { s with incomingCall := none, incomingCallerId := "", callStatus := "" }
  | .acceptSettle call =>
    let s := handleCall s (some call)
    { s with incomingCall := none, incomingCallerId := "" }
  | .checkCall _ => checkCallTick s t.id read

/-- The function `initializeDevice` of the mount effect. `res` is the outcome of the token
request and of `new Device(token)`: the device, or the message of the error. -/
def initializeDevice (s : Client) (res : Except String Device) : Client :=
  let s := { s with deviceError := none }
  let s := s.emit (.getToken tokenUrl)
  match res with
  | .ok dev => ({ s with device := some dev }).emit .deviceRegister
  | .error message =>
    { s with
      deviceError := some (if message = "" then "Failed to initialize device" else message),
      deviceReady := false }

/-- The device listener for `"registered"`. -/
def registered (s : Client) : Client :=
  { s with deviceReady := true }

/-- The device listener for `"error"`. -/
def deviceError (s : Client) (message : String) : Client :=
  { s with deviceError := some message, deviceReady := false }

/-- The caller id the `"incoming"` handler shows:
`call.parameters?.From || call.from || call.parameters?.Caller || "Unknown"`. -/
def callerIdOf (call : CallHandle) : String :=
  match call.parametersFrom.filter (fun x => x ≠ "") with
  | some x => x
  | none =>
    match call.«from».filter (fun x => x ≠ "") with
    | some x => x
    | none =>
      match call.parametersCaller.filter (fun x => x ≠ "") with
      | some x => x
      | none => "Unknown"

/-- The device listener for `"incoming"`: the Device delivers an inbound call handle. When the
handle has no `on` function the first `call.on(...)` throws, after the three state setters. -/
def incoming (s : Client) (call : CallHandle) : Client :=
  let callerId := callerIdOf call
  let s := { s with
    incomingCallerId := callerId,
    incomingCall := some call,
    callStatus := "incoming" }
  if call.hasOn then
    let s := s.subscribe call "accept" .incomingAccept
    let s := s.subscribe call "disconnect" .incomingEnd
    let s := s.subscribe call "error" .incomingError
    let timeout := s.nextTimer
    let s := s.setTimeout (.autoReject call) 30000
    { s with callTimeout := (call.id, timeout) :: s.callTimeout }
  else s

/-- The device listener for `"connect"`. -/
def deviceConnect (s : Client) (call : Option CallHandle) : Client :=
  if !s.callHandled then handleCall s call else s

/-- The device listener for `"disconnect"`. -/
def deviceDisconnect (s : Client) : Client :=
  endCall s

/-- The statements `if (incomingCall._timeout) clearTimeout(incomingCall._timeout)`. -/
def clearCallTimeout (s : Client) (call : CallHandle) : Client :=
  match s.callTimeout.lookup call.id with
  | some timeout => if timeout ≠ 0 then s.clearTimer timeout else s
  | none => s

/-- The operation `acceptIncomingCall()`. `accepted` is the outcome of `incomingCall.accept()`. -/
def acceptIncomingCall (s : Client) (accepted : Except String Unit) : Client :=
  match s.incomingCall with
  | none => s
  | some incomingCall =>
    if s.device.isNone || !s.deviceReady then
      s.emit (.alert "Device is not ready. Please wait for device initialization.")
    else
      let s := clearCallTimeout s incomingCall
      let s := s.emit (.callAccept incomingCall.id)
      match accepted with
      | .ok _ => s.setTimeout (.acceptSettle incomingCall) 100
      | .error message =>
        let s := s.emit (.alert ("Failed to accept call: " ++ message))
        { s with incomingCall := none, incomingCallerId := "", callStatus := "" }

/-- The operation `rejectIncomingCall()`. `rejected` is the outcome of `incomingCall.reject()`
(an exception is caught and logged). -/
def rejectIncomingCall (s : Client) (rejected : Except String Unit) : Client :=
  match s.incomingCall with
  | none => s
  | some incomingCall =>
    let s := clearCallTimeout s incomingCall
    let s := s.emit (.callReject incomingCall.id)
    let s :=
      match rejected with
      | .ok _ => s
      | .error _ => s
    { s with incomingCall := none, incomingCallerId := "", callStatus := "" }

/-- The loop `device.calls.forEach(call => ...)` of `disconnectCall`: `call.disconnect()` on
every listed call that has it, until one invocation throws. -/
def disconnectEach (throwsOn : Effect → Bool) (s : Client) : List CallHandle → Client
  | [] => s
  | call :: rest =>
    if call.hasDisconnect then
      let s := s.emit (.callDisconnect call.id)
      if throwsOn (.callDisconnect call.id) then s
      else disconnectEach throwsOn s rest
    else disconnectEach throwsOn s rest

/-- The operation `disconnectCall()`. `throwsOn` tells which invocation throws; an exception
is caught and logged, and for a single invocation changes nothing of what follows. -/
def disconnectCall (s : Client) (throwsOn : Effect → Bool) : Client :=
  match s.activeCall with
  | some activeCall =>
    let s :=
      if activeCall.hasDisconnect then s.emit (.callDisconnect activeCall.id)
      else if activeCall.hasHangup then s.emit (.callHangup activeCall.id)
      else if activeCall.hasReject then s.emit (.callReject activeCall.id)
      else
        match s.device with
        | some device =>
          if device.hasDisconnectAll then s.emit .deviceDisconnectAll
          else if device.hasDisconnect then s.emit (.deviceDisconnect activeCall.id)
          else
            match device.calls with
            | some calls => disconnectEach throwsOn s calls
            | none => s
        | none => s
    endCall s
  | none =>
    if s.callStatus ≠ "" then { s with callStatus := "" } else s

/-- Whether a timer callback is the liveness poll. -/
def Callback.isCheckCall : Callback → Bool
  | .checkCall _ => true
  | _ => false

/-- The effect on `[activeCall]` (lines 289-330), run after a render in which `activeCall`
changed: the cleanup of the previous run clears its interval, then a new poll starts when a
call is active. -/
def checkCallEffect (s : Client) : Client :=
  let s := { s with timers := s.timers.filter (fun t => !t.task.isCheckCall) }
  match s.activeCall with
  | none => s
  | some currentCall => s.setInterval (.checkCall currentCall) 500

/-- The effect on `[activeCall, callStatus]` (lines 333-337). -/
def clearStatusEffect (s : Client) : Client :=
  if s.activeCall.isNone && s.callStatus ≠ "" && s.callStatus ≠ "incoming" then
    { s with callStatus := "" }
  else s

/-- The effects React runs after the render that follows a state change; `prev` is the state
of the render before. An effect runs when one of its dependencies changed. -/
def render (prev s : Client) : Client :=
  let s := if s.activeCall = prev.activeCall then s else checkCallEffect s
  if s.activeCall = prev.activeCall ∧ s.callStatus = prev.callStatus then s
  else clearStatusEffect s

/-- Teardown of the component: the cleanups of the mount effect (`dev.destroy()`, reset of the
handled flag) and of the effect on `[activeCall]` (`clearInterval(checkCall)`). -/
def unmount (s : Client) : Client :=
  let s :=
    match s.device with
    | some _ => s.emit .deviceDestroy
    | none => s
  let s := { s with callHandled := false }
  { s with timers := s.timers.filter (fun t => !t.task.isCheckCall) }

/-- A client whose device is registered, idle, with a destination typed in. -/
def readyClient : Client :=
  { registered (initializeDevice {} (.ok {})) with number := "+15550123" }

/-- The state `readyClient` reaches when an outbound call is placed, `device.connect` returns
its handle 1, and the Device then delivers the inbound handle 2. -/
def callWaiting : Client :=
  incoming (makeCall readyClient (.ok ()) (.call { id := 1 })) { id := 2 }

/-- The state `readyClient` reaches when the inbound handle 1 is delivered and accepted, the
handle emits `"disconnect"` just before the delayed callback of the accept runs, the delayed
callback and then the deferred clearing run, and the Device delivers the inbound handle 2. -/
def staleFlag : Client :=
  let s1 := incoming readyClient { id := 1 }
  let s2 := acceptIncomingCall s1 (.ok ())
  let s3 := fire s2 1 "disconnect" ""
  let s4 := runTimer s3 ⟨2, 100, false, .acceptSettle { id := 1 }⟩ none (.ok ())
  let s5 := runTimer s4 ⟨3, 0, false, .deferredClear⟩ none (.ok ())
  incoming s5 { id := 2 }

/-- The state `readyClient` reaches when the inbound handle 1 is delivered and accepted and the
delayed callback of the accept has run. -/
def acceptedInbound : Client :=
  runTimer (acceptIncomingCall (incoming readyClient { id := 1 }) (.ok ()))
    ⟨2, 100, false, .acceptSettle { id := 1 }⟩ none (.ok ())

/-- The state `readyClient` reaches when `handleCall` attaches to a handle 1 whose status
reads "open". -/
def polledCall : Client :=
  handleCall readyClient (some { id := 1, status := .str "open" })

/-- A provider that creates every call it is asked for. -/
def sampleCreate : CallCreateArgs → Except JsVal CallInstance :=
  fun _ => .ok { sid := .str "CA1", status := .str "queued", direction := .str "outbound-api" }

/-- A client with a ready device, a destination typed in, and a call in progress. -/
def busyClient : Client :=
  { device := some {},
    deviceReady := true,
    number := "+15550123",
    activeCall := some { id := 1 },
    callStatus := "connected",
    callHandled := true }

/-! ## Properties of the call-control service -/

/-- C1: for every request to the menu handler whose `Digits` value is anything other than
exactly the string "1" or exactly the string "2", the document is the spoken text
"Invalid choice. Please try again." followed by a redirect to "/incoming-call", it holds no
dial instruction, and the response is fixed by that input alone: every request with the same
`Digits` value gets the same response, whatever else it carries. -/
theorem handleKey_invalid_choice (req : Request)
    (h1 : req.body "Digits" ≠ .str "1") (h2 : req.body "Digits" ≠ .str "2") :
    handleKey req =
        { contentType := "text/xml",
          twiml := [.say "Invalid choice. Please try again.", .redirect "/incoming-call"] }
      ∧ (∀ v ∈ (handleKey req).twiml, v.isDial = false)
      ∧ dialedClients (handleKey req).twiml = []
      ∧ (∀ req2 : Request, req2.body "Digits" = req.body "Digits" →
          handleKey req2 = handleKey req) := by
  have hdoc : handleKey req =
      { contentType := "text/xml",
        twiml := [.say "Invalid choice. Please try again.", .redirect "/incoming-call"] } := by
    unfold handleKey
    cases hd : req.body "Digits" with
    | undefined => simp [JsVal.strictEq]
    | other t x => simp [JsVal.strictEq]
    | str s =>
      have e1 : s ≠ "1" := fun e => h1 (by rw [hd, e])
      have e2 : s ≠ "2" := fun e => h2 (by rw [hd, e])
      simp [JsVal.strictEq, e1, e2]
  refine ⟨hdoc, ?_, ?_, ?_⟩
  · rw [hdoc]
    intro v hv
    simp at hv
    rcases hv with rfl | rfl <;> rfl
  · rw [hdoc]
    rfl
  · intro req2 h
    unfold handleKey
    rw [h]

/-- Witness for C1 at the inputs the claim names: a missing value, the empty string, "12"
and " 1". -/
theorem handleKey_invalid_choice_witness :
    handleKey { body := fields [], query := fields [] } =
        { contentType := "text/xml",
          twiml := [.say "Invalid choice. Please try again.", .redirect "/incoming-call"] }
    ∧ handleKey { body := fields [("Digits", JsVal.str "")], query := fields [] } =
        { contentType := "text/xml",
          twiml := [.say "Invalid choice. Please try again.", .redirect "/incoming-call"] }
    ∧ handleKey { body := fields [("Digits", JsVal.str "12")], query := fields [] } =
        { contentType := "text/xml",
          twiml := [.say "Invalid choice. Please try again.", .redirect "/incoming-call"] }
    ∧ handleKey { body := fields [("Digits", JsVal.str " 1")], query := fields [] } =
        { contentType := "text/xml",
          twiml := [.say "Invalid choice. Please try again.", .redirect "/incoming-call"] } :=
  ⟨(handleKey_invalid_choice { body := fields [], query := fields [] }
      (by decide) (by decide)).1,
   (handleKey_invalid_choice
      { body := fields [("Digits", JsVal.str "")], query := fields [] }
      (by decide) (by decide)).1,
   (handleKey_invalid_choice
      { body := fields [("Digits", JsVal.str "12")], query := fields [] }
      (by decide) (by decide)).1,
   (handleKey_invalid_choice
      { body := fields [("Digits", JsVal.str " 1")], query := fields [] }
      (by decide) (by decide)).1⟩

/-- C2: for `Digits` exactly "1" the menu handler speaks a connecting message and then dials
exactly one client identity, "user-support", with timeout 30 and action
"/call-status?department=support"; for `Digits` exactly "2" it dials exactly "user-sales"
with timeout 30 and action "/call-status?department=sales". In both cases the document holds
no redirect, and the department of the action target names the identity that is dialed. -/
theorem handleKey_dials_department (req : Request) :
    (req.body "Digits" = .str "1" →
      handleKey req =
        { contentType := "text/xml",
          twiml := [.say "Connecting to support. Please wait while we connect you to an agent.",
            .dial 30 "/call-status?department=support" ["user-support"]] })
    ∧ (req.body "Digits" = .str "2" →
      handleKey req =
        { contentType := "text/xml",
          twiml := [.say
              "Connecting to sales. Please wait while we connect you to a sales representative.",
            .dial 30 "/call-status?department=sales" ["user-sales"]] })
    ∧ (req.body "Digits" = .str "1" ∨ req.body "Digits" = .str "2" →
      (∀ v ∈ (handleKey req).twiml, v.isRedirect = false)
      ∧ ∃ msg department,
          (handleKey req).twiml =
            [.say msg, .dial 30 ("/call-status?department=" ++ department)
              ["user-" ++ department]]) := by
  have k1 : req.body "Digits" = .str "1" → handleKey req =
      { contentType := "text/xml",
        twiml := [.say "Connecting to support. Please wait while we connect you to an agent.",
          .dial 30 "/call-status?department=support" ["user-support"]] } := by
    intro h
    unfold handleKey
    rw [h]
    rfl
  have k2 : req.body "Digits" = .str "2" → handleKey req =
      { contentType := "text/xml",
        twiml := [.say
            "Connecting to sales. Please wait while we connect you to a sales representative.",
          .dial 30 "/call-status?department=sales" ["user-sales"]] } := by
    intro h
    unfold handleKey
    rw [h]
    rfl
  refine ⟨k1, k2, ?_⟩
  rintro (h | h)
  · rw [k1 h]
    refine ⟨?_, _, "support", rfl⟩
    intro v hv
    simp at hv
    rcases hv with rfl | rfl <;> rfl
  · rw [k2 h]
    refine ⟨?_, _, "sales", rfl⟩
    intro v hv
    simp at hv
    rcases hv with rfl | rfl <;> rfl

/-- Witness for C2: the documents for the digits "1" and "2". -/
theorem handleKey_dials_department_witness :
    handleKey { body := fields [("Digits", JsVal.str "1")], query := fields [] } =
        { contentType := "text/xml",
          twiml := [.say "Connecting to support. Please wait while we connect you to an agent.",
            .dial 30 "/call-status?department=support" ["user-support"]] }
    ∧ handleKey { body := fields [("Digits", JsVal.str "2")], query := fields [] } =
        { contentType := "text/xml",
          twiml := [.say
              "Connecting to sales. Please wait while we connect you to a sales representative.",
            .dial 30 "/call-status?department=sales" ["user-sales"]] } :=
  ⟨(handleKey_dials_department
      { body := fields [("Digits", JsVal.str "1")], query := fields [] }).1 (by decide),
   (handleKey_dials_department
      { body := fields [("Digits", JsVal.str "2")], query := fields [] }).2.1 (by decide)⟩

/-- A decimal digit has its value in radix 10. -/
theorem digitValue_decimal (c : Char) (h : 48 ≤ c.toNat ∧ c.toNat ≤ 57) :
    digitValue 10 c = some (c.toNat - 48) := by
  unfold digitValue
  have : c.toNat - 48 < 10 := by omega
  simp [h, this]

/-- A decimal digit is not white space. -/
theorem not_whiteSpace_of_digit (c : Char) (h : 48 ≤ c.toNat ∧ c.toNat ≤ 57) :
    isStrWhiteSpaceChar c = false := by
  unfold isStrWhiteSpaceChar
  simp
  omega

/-- On a run of decimal digits `takeDigits` reads every character. -/
theorem takeDigits_decimal (cs : List Char) (hd : ∀ c ∈ cs, 48 ≤ c.toNat ∧ c.toNat ≤ 57) :
    takeDigits 10 cs = cs.map (fun c => c.toNat - 48) := by
  induction cs with
  | nil => rfl
  | cons c t ih =>
    simp only [takeDigits, digitValue_decimal c (hd c (List.mem_cons_self _ _)), List.map_cons]
    rw [ih (fun x hx => hd x (List.mem_cons_of_mem _ hx))]

/-- On a non-empty run of decimal digits `parseInt` yields the number the run denotes. -/
theorem parseIntChars_decimal (cs : List Char) (hne : cs ≠ [])
    (hd : ∀ c ∈ cs, 48 ≤ c.toNat ∧ c.toNat ≤ 57) :
    parseIntChars cs = some ((cs.foldl (fun acc c => acc * 10 + (c.toNat - 48)) 0 : Nat) : Int) := by
  cases cs with
  | nil => exact absurd rfl hne
  | cons c t =>
    have hc := hd c (List.mem_cons_self _ _)
    have hws := not_whiteSpace_of_digit c hc
    have hminus : c ≠ '-' := by
      intro e; rw [e] at hc; revert hc; decide
    have hplus : c ≠ '+' := by
      intro e; rw [e] at hc; revert hc; decide
    have hx : ∀ t2, t ≠ 'x' :: t2 := by
      intro t2 e
      have := hd 'x' (by rw [e]; simp)
      revert this; decide
    have hX : ∀ t2, t ≠ 'X' :: t2 := by
      intro t2 e
      have := hd 'X' (by rw [e]; simp)
      revert this; decide
    unfold parseIntChars
    simp only [List.dropWhile, hws]
    have hsigned : (match c :: t with
        | '-' :: t => ((-1 : Int), t)
        | '+' :: t => (1, t)
        | _ => (1, c :: t)) = (1, c :: t) := by
      split
      · rename_i h; exact absurd (List.cons.inj h).1 hminus
      · rename_i h; exact absurd (List.cons.inj h).1 hplus
      · rfl
    rw [hsigned]
    have hbased : (match c :: t with
        | '0' :: 'x' :: t => (16, t)
        | '0' :: 'X' :: t => (16, t)
        | _ => (10, c :: t)) = (10, c :: t) := by
      split
      · rename_i h; exact absurd (List.cons.inj h).2 (hx _)
      · rename_i h; exact absurd (List.cons.inj h).2 (hX _)
      · rfl
    simp only [hbased]
    rw [takeDigits_decimal (c :: t) hd]
    simp [digitsValue, List.foldl_map]

/-- The response for the statuses "completed" and "answered". -/
theorem callStatus_thanks (req : Request)
    (hs : req.body "DialCallStatus" = .str "completed" ∨
      req.body "DialCallStatus" = .str "answered") :
    callStatus req =
      (if (req.body "DialCallDuration").toBoolean then
        match (req.body "DialCallDuration").toStr with
        | .error e => .error e
        | .ok text =>
          .ok { contentType := "text/xml",
                twiml :=
                  if gtZero (parseIntChars text.data) then
                    [.say ("Thank you for calling. The call lasted " ++ text
                      ++ " seconds. Goodbye.")]
                  else [.say "Thank you for calling. Goodbye."] }
      else .ok { contentType := "text/xml", twiml := [.say "Thank you for calling. Goodbye."] }) := by
  unfold callStatus parseInt
  rcases hs with h | h <;> rw [h] <;> simp only [JsVal.strictEq] <;>
    cases hb : (req.body "DialCallDuration").toBoolean <;>
    cases ht : (req.body "DialCallDuration").toStr <;> simp <;>
    rename_i text <;>
    cases hg : gtZero (parseIntChars text.data) <;> simp

/-- A decimal numeral is truthy, converts to itself, and parses to its value. -/
theorem parseInt_decimal (d : String) (hd : isDecimalNumeral d) :
    (JsVal.str d).toBoolean = true ∧ (JsVal.str d).toStr = .ok d
      ∧ parseIntChars d.data = some (decimalValue d : Int)
      ∧ parseInt (.str d) = .ok (some (decimalValue d : Int)) := by
  have hp := parseIntChars_decimal d.data hd.1 hd.2
  refine ⟨?_, rfl, hp, ?_⟩
  · have : d ≠ "" := by
      intro e
      apply hd.1
      rw [e]
    simp [JsVal.toBoolean, this]
  · simp only [parseInt, JsVal.toStr]
    rw [hp]
    rfl

/-- C3: for a dial-status callback whose `DialCallStatus` is "completed" or "answered": when
`DialCallDuration` is a decimal numeral denoting an integer greater than 0, the spoken message
is "Thank you for calling. The call lasted <DialCallDuration> seconds. Goodbye." and so
contains the duration text; when the duration is missing, empty, or denotes 0, the message is
exactly "Thank you for calling. Goodbye."; and "completed" and "answered" give the same
response for the same duration. -/
theorem callStatus_completed_duration (req : Request)
    (hs : req.body "DialCallStatus" = .str "completed" ∨
      req.body "DialCallStatus" = .str "answered") :
    (∀ d : String, req.body "DialCallDuration" = .str d → isDecimalNumeral d →
        0 < decimalValue d →
      callStatus req =
          .ok { contentType := "text/xml",
                twiml := [.say ("Thank you for calling. The call lasted " ++ d
                  ++ " seconds. Goodbye.")] }
        ∧ d.data <:+: ("Thank you for calling. The call lasted " ++ d
              ++ " seconds. Goodbye.").data)
    ∧ (req.body "DialCallDuration" = .undefined ∨ req.body "DialCallDuration" = .str "" ∨
        (∃ d : String, req.body "DialCallDuration" = .str d ∧ isDecimalNumeral d ∧
          decimalValue d = 0) →
      callStatus req =
          .ok { contentType := "text/xml", twiml := [.say "Thank you for calling. Goodbye."] })
    ∧ (∀ req2 : Request,
        (req2.body "DialCallStatus" = .str "completed" ∨
          req2.body "DialCallStatus" = .str "answered") →
        req2.body "DialCallDuration" = req.body "DialCallDuration" →
        callStatus req2 = callStatus req) := by
  refine ⟨?_, ?_, ?_⟩
  · intro d hd hnum hpos
    constructor
    · rw [callStatus_thanks req hs, hd, (parseInt_decimal d hnum).1]
      have : gtZero (some (decimalValue d : Int)) = true := by
        simp [gtZero, hpos]
      simp [JsVal.toStr, (parseInt_decimal d hnum).2.2.1, this]
    · refine ⟨"Thank you for calling. The call lasted ".data, " seconds. Goodbye.".data, ?_⟩
      simp [String.data_append]
  · intro h
    rw [callStatus_thanks req hs]
    rcases h with h | h | ⟨d, h, hnum, hz⟩
    · rw [h]; simp [JsVal.toBoolean]
    · rw [h]; simp [JsVal.toBoolean]
    · rw [h, (parseInt_decimal d hnum).1]
      simp [JsVal.toStr, (parseInt_decimal d hnum).2.2.1, hz, gtZero]
  · intro req2 hs2 hd2
    rw [callStatus_thanks req hs, callStatus_thanks req2 hs2, hd2]

/-- Witness for C3: status "completed" with duration "45" gives a message containing "45";
status "answered" with duration "0" gives the message without a duration. -/
theorem callStatus_completed_duration_witness :
    (callStatus { body := fields [("DialCallStatus", JsVal.str "completed"),
          ("DialCallDuration", JsVal.str "45")], query := fields [] } =
        .ok { contentType := "text/xml",
              twiml := [.say "Thank you for calling. The call lasted 45 seconds. Goodbye."] }
      ∧ "45".data <:+: "Thank you for calling. The call lasted 45 seconds. Goodbye.".data)
    ∧ callStatus { body := fields [("DialCallStatus", JsVal.str "answered"),
          ("DialCallDuration", JsVal.str "0")], query := fields [] } =
        .ok { contentType := "text/xml", twiml := [.say "Thank you for calling. Goodbye."] } :=
  ⟨(callStatus_completed_duration
      { body := fields [("DialCallStatus", JsVal.str "completed"),
          ("DialCallDuration", JsVal.str "45")], query := fields [] }
      (Or.inl (by decide))).1 "45" (by decide) ⟨by decide, by decide⟩ (by decide),
   (callStatus_completed_duration
      { body := fields [("DialCallStatus", JsVal.str "answered"),
          ("DialCallDuration", JsVal.str "0")], query := fields [] }
      (Or.inr (by decide))).2.1
      (Or.inr (Or.inr ⟨"0", by decide, ⟨by decide, by decide⟩, by decide⟩))⟩

/-- The response of the dial-status handler, by status. -/
theorem callStatus_classify (req : Request) :
    ((req.body "DialCallStatus" = .str "completed" ∨ req.body "DialCallStatus" = .str "answered")
      ∧ (((req.body "DialCallDuration").toBoolean = true
            ∧ ∃ e, (req.body "DialCallDuration").toStr = .error e ∧ callStatus req = .error e)
        ∨ callStatus req =
            .ok { contentType := "text/xml", twiml := [.say "Thank you for calling. Goodbye."] }
        ∨ ∃ text, (req.body "DialCallDuration").toStr = .ok text ∧
            callStatus req =
              .ok { contentType := "text/xml",
                    twiml := [.say ("Thank you for calling. The call lasted " ++ text
                      ++ " seconds. Goodbye.")] }))
    ∨ (req.body "DialCallStatus" = .str "no-answer" ∧ callStatus req =
        .ok { contentType := "text/xml", twiml := [.say "Sorry, the agent did not answer. Please make sure the app is open and try again later."] })
    ∨ (req.body "DialCallStatus" = .str "busy" ∧ callStatus req =
        .ok { contentType := "text/xml", twiml := [.say "Sorry, the agent is busy at the moment. Please try again later."] })
    ∨ (req.body "DialCallStatus" = .str "failed" ∧ callStatus req =
        .ok { contentType := "text/xml", twiml := [.say "The call could not be completed. Please make sure the app is open and registered, then try again."] })
    ∨ (req.body "DialCallStatus" = .str "canceled" ∧ callStatus req =
        .ok { contentType := "text/xml", twiml := [.say "The call was canceled. Please try again."] })
    ∨ ((∀ s ∈ ["completed", "answered", "no-answer", "busy", "failed", "canceled"],
          req.body "DialCallStatus" ≠ .str s)
        ∧ callStatus req =
          .ok { contentType := "text/xml", twiml := [.say "The call has ended. Thank you for calling."] }) := by
  have thanks : ∀ hs : req.body "DialCallStatus" = .str "completed" ∨
      req.body "DialCallStatus" = .str "answered",
      ((req.body "DialCallDuration").toBoolean = true
            ∧ ∃ e, (req.body "DialCallDuration").toStr = .error e ∧ callStatus req = .error e)
        ∨ callStatus req =
            .ok { contentType := "text/xml", twiml := [.say "Thank you for calling. Goodbye."] }
        ∨ ∃ text, (req.body "DialCallDuration").toStr = .ok text ∧
            callStatus req =
              .ok { contentType := "text/xml",
                    twiml := [.say ("Thank you for calling. The call lasted " ++ text
                      ++ " seconds. Goodbye.")] } := by
    intro hs
    rw [callStatus_thanks req hs]
    cases hb : (req.body "DialCallDuration").toBoolean with
    | false => right; left; simp
    | true =>
      cases ht : (req.body "DialCallDuration").toStr with
      | error e => left; exact ⟨rfl, e, rfl, by simp⟩
      | ok text =>
        by_cases c : gtZero (parseIntChars text.data) = true
        · right; right; exact ⟨text, rfl, by simp [c]⟩
        · right; left; simp [c]
  by_cases h1 : req.body "DialCallStatus" = .str "completed"
  · exact Or.inl ⟨Or.inl h1, thanks (Or.inl h1)⟩
  by_cases h2 : req.body "DialCallStatus" = .str "answered"
  · exact Or.inl ⟨Or.inr h2, thanks (Or.inr h2)⟩
  by_cases h3 : req.body "DialCallStatus" = .str "no-answer"
  · right; left
    refine ⟨h3, ?_⟩
    unfold callStatus; rw [h3]; simp [JsVal.strictEq]
  by_cases h4 : req.body "DialCallStatus" = .str "busy"
  · right; right; left
    refine ⟨h4, ?_⟩
    unfold callStatus; rw [h4]; simp [JsVal.strictEq]
  by_cases h5 : req.body "DialCallStatus" = .str "failed"
  · right; right; right; left
    refine ⟨h5, ?_⟩
    unfold callStatus; rw [h5]; simp [JsVal.strictEq]
  by_cases h6 : req.body "DialCallStatus" = .str "canceled"
  · right; right; right; right; left
    refine ⟨h6, ?_⟩
    unfold callStatus; rw [h6]; simp [JsVal.strictEq]
  right; right; right; right; right
  constructor
  · intro s hs
    simp only [List.mem_cons, List.mem_singleton, List.not_mem_nil, or_false] at hs
    rcases hs with rfl | rfl | rfl | rfl | rfl | rfl <;> assumption
  · unfold callStatus
    cases hd : req.body "DialCallStatus" with
    | undefined => simp [JsVal.strictEq]
    | other t x => simp [JsVal.strictEq]
    | str s =>
      rw [hd] at h1 h2 h3 h4 h5 h6
      simp only [JsVal.str.injEq] at h1 h2 h3 h4 h5 h6
      simp [JsVal.strictEq, h1, h2, h3, h4, h5, h6]

/-- The thank-you message with a duration starts with "Tha". -/
theorem thanks_data (x : String) :
    (("Thank you for calling. The call lasted " ++ x ++ " seconds. Goodbye." : String)).data.take 3
      = ['T', 'h', 'a'] := by
  simp [String.data_append]

/-- Requests with the same one of the four outcome statuses get the same response. -/
theorem callStatus_of_eq_status (req req2 : Request) (s : String)
    (hs : req.body "DialCallStatus" = .str s)
    (hmem : s ∈ ["no-answer", "busy", "failed", "canceled"])
    (h2 : req2.body "DialCallStatus" = req.body "DialCallStatus") :
    callStatus req2 = callStatus req := by
  simp only [List.mem_cons, List.mem_singleton, List.not_mem_nil, or_false] at hmem
  unfold callStatus
  rw [h2, hs]
  rcases hmem with rfl | rfl | rfl | rfl <;> simp [JsVal.strictEq]

/-- A request with another status gets another document, if any, than one of the four
outcomes. -/
theorem callStatus_ne_of_ne_status (req req2 : Request) (s : String)
    (hs : req.body "DialCallStatus" = .str s)
    (hmem : s ∈ ["no-answer", "busy", "failed", "canceled"])
    (h2 : req2.body "DialCallStatus" ≠ req.body "DialCallStatus")
    (r r2 : XmlResponse) (hr : callStatus req = .ok r) (hr2 : callStatus req2 = .ok r2) :
    r2.twiml ≠ r.twiml := by
  simp only [List.mem_cons, List.mem_singleton, List.not_mem_nil, or_false] at hmem
  have hreq2 := callStatus_classify req2
  rw [hr2] at hreq2
  rw [hs] at h2
  rcases hmem with rfl | rfl | rfl | rfl
  all_goals
    have hr1 := hr
    unfold callStatus at hr1
    rw [hs] at hr1
    simp [JsVal.strictEq] at hr1
    subst hr1
    rcases hreq2 with ⟨_, ⟨_, e, _, h⟩ | h | ⟨text, _, h⟩⟩ | ⟨e, h⟩ | ⟨e, h⟩ | ⟨e, h⟩ | ⟨e, h⟩ |
      ⟨_, h⟩
    all_goals first
      | exact Except.noConfusion h
      | exact absurd e h2
      | (simp only [Except.ok.injEq] at h
         subst h
         decide)
      | (simp only [Except.ok.injEq] at h
         subst h
         intro hc
         have hd := congrArg (fun l => match l with
           | [Verb.say m] => m.data.take 3
           | _ => []) hc
         simp only [thanks_data] at hd
         revert hd
         decide)

/-- C4: for `DialCallStatus` equal to "no-answer", "busy", "failed" or "canceled" the
dial-status handler returns the fixed spoken message of that status; the response is the same
for every request with that status (whatever `DialCallDuration`, `DialCallSid` and the
`department` query parameter are), and it differs from the document of every request with any
other status: the four messages are pairwise distinct, distinct from every message for
"completed"/"answered", and distinct from the message for any other status. -/
theorem callStatus_outcome_messages (req : Request) (s : String)
    (hs : req.body "DialCallStatus" = .str s)
    (hmem : s ∈ ["no-answer", "busy", "failed", "canceled"]) :
    (s = "no-answer" → callStatus req = .ok { contentType := "text/xml", twiml := [.say "Sorry, the agent did not answer. Please make sure the app is open and try again later."] })
    ∧ (s = "busy" → callStatus req = .ok { contentType := "text/xml", twiml := [.say "Sorry, the agent is busy at the moment. Please try again later."] })
    ∧ (s = "failed" → callStatus req = .ok { contentType := "text/xml", twiml := [.say "The call could not be completed. Please make sure the app is open and registered, then try again."] })
    ∧ (s = "canceled" → callStatus req = .ok { contentType := "text/xml", twiml := [.say "The call was canceled. Please try again."] })
    ∧ (∀ req2 : Request, req2.body "DialCallStatus" = .str s →
        callStatus req2 = callStatus req)
    ∧ (∃ r : XmlResponse, callStatus req = .ok r ∧
        ∀ req2 : Request, req2.body "DialCallStatus" ≠ .str s →
          ∀ r2 : XmlResponse, callStatus req2 = .ok r2 → r2.twiml ≠ r.twiml) := by
  have hok : ∃ r : XmlResponse, callStatus req = .ok r := by
    simp only [List.mem_cons, List.mem_singleton, List.not_mem_nil, or_false] at hmem
    unfold callStatus
    rw [hs]
    rcases hmem with rfl | rfl | rfl | rfl <;> simp [JsVal.strictEq]
  refine ⟨?_, ?_, ?_, ?_, ?_, ?_⟩
  · rintro rfl; unfold callStatus; rw [hs]; simp [JsVal.strictEq]
  · rintro rfl; unfold callStatus; rw [hs]; simp [JsVal.strictEq]
  · rintro rfl; unfold callStatus; rw [hs]; simp [JsVal.strictEq]
  · rintro rfl; unfold callStatus; rw [hs]; simp [JsVal.strictEq]
  · intro req2 h2
    exact callStatus_of_eq_status req req2 s hs hmem (by rw [h2, hs])
  · obtain ⟨r, hr⟩ := hok
    refine ⟨r, hr, ?_⟩
    intro req2 h2 r2 hr2
    exact callStatus_ne_of_ne_status req req2 s hs hmem (by rw [hs]; exact h2) r r2 hr hr2

/-- Witness for C4: a "busy" callback that also carries a duration, a call sid and a
department. -/
theorem callStatus_outcome_messages_witness :
    callStatus
        { body := fields [("DialCallStatus", JsVal.str "busy"),
            ("DialCallDuration", JsVal.str "45"), ("DialCallSid", JsVal.str "CA1")],
          query := fields [("department", JsVal.str "sales")] } =
      .ok { contentType := "text/xml", twiml := [.say "Sorry, the agent is busy at the moment. Please try again later."] } :=
  (callStatus_outcome_messages
    { body := fields [("DialCallStatus", JsVal.str "busy"),
          ("DialCallDuration", JsVal.str "45"), ("DialCallSid", JsVal.str "CA1")],
      query := fields [("department", JsVal.str "sales")] }
    "busy" (by decide) (by decide)).2.1 rfl

/-- C5, as stated, fails: the dial-status handler is not total. For the JSON body
`{"DialCallStatus": "completed", "DialCallDuration": {"toString": 1}}` the duration is truthy
and its string conversion throws, so `parseInt(dialCallDuration)` throws a `TypeError` and
the handler sends no document and speaks no message. -/
theorem callStatus_throws :
    callStatus throwingDurationRequest =
      .error "TypeError: Cannot convert object to primitive value" := by
  rfl

/-- Presence of a request value is its JavaScript truthiness. -/
theorem present_iff (v : JsVal) : present v ↔ v.toBoolean = true := by
  cases v <;> simp [present, JsVal.toBoolean]

/-- C5, amended: the dial-status handler sends no document exactly when `DialCallStatus` is
"completed" or "answered" and `DialCallDuration` is truthy with a string conversion that
throws. For every other request it speaks exactly one message out of six canned messages
fixed by `DialCallStatus`: the thank-you message for "completed"/"answered" (either
"Thank you for calling. Goodbye." or the form with the duration written into it), one message
each for "no-answer", "busy", "failed" and "canceled", and for every other value, a missing
one included, "The call has ended. Thank you for calling.". -/
theorem callStatus_one_of_six_kinds (req : Request) :
    ((∃ e, callStatus req = .error e) ↔
      ((req.body "DialCallStatus" = .str "completed" ∨
          req.body "DialCallStatus" = .str "answered")
        ∧ (req.body "DialCallDuration").toBoolean = true
        ∧ ∃ e, (req.body "DialCallDuration").toStr = .error e))
    ∧ ((∃ e, callStatus req = .error e) ∨
      ∃ m : String, callStatus req = .ok { contentType := "text/xml", twiml := [.say m] } ∧
        (((req.body "DialCallStatus" = .str "completed" ∨
              req.body "DialCallStatus" = .str "answered") ∧
            (m = "Thank you for calling. Goodbye." ∨
              ∃ text, (req.body "DialCallDuration").toStr = .ok text ∧
                m = "Thank you for calling. The call lasted " ++ text ++ " seconds. Goodbye."))
          ∨ (req.body "DialCallStatus" = .str "no-answer" ∧ m = "Sorry, the agent did not answer. Please make sure the app is open and try again later.")
          ∨ (req.body "DialCallStatus" = .str "busy" ∧ m = "Sorry, the agent is busy at the moment. Please try again later.")
          ∨ (req.body "DialCallStatus" = .str "failed" ∧ m = "The call could not be completed. Please make sure the app is open and registered, then try again.")
          ∨ (req.body "DialCallStatus" = .str "canceled" ∧ m = "The call was canceled. Please try again.")
          ∨ ((∀ s ∈ ["completed", "answered", "no-answer", "busy", "failed", "canceled"],
                req.body "DialCallStatus" ≠ .str s) ∧
              m = "The call has ended. Thank you for calling."))) := by
  constructor
  · constructor
    · rintro ⟨e, he⟩
      rcases callStatus_classify req with
        ⟨hs, ⟨hb, e2, ht, _⟩ | h | ⟨text, _, h⟩⟩ | ⟨_, h⟩ | ⟨_, h⟩ | ⟨_, h⟩ | ⟨_, h⟩ | ⟨_, h⟩
      · exact ⟨hs, hb, e2, ht⟩
      all_goals (rw [h] at he; exact absurd he (by simp))
    · rintro ⟨hs, hb, e, ht⟩
      refine ⟨e, ?_⟩
      rw [callStatus_thanks req hs, hb, ht]
      rfl
  · rcases callStatus_classify req with
      ⟨hs, ⟨_, e, _, h⟩ | h | ⟨text, ht, h⟩⟩ | ⟨hs, h⟩ | ⟨hs, h⟩ | ⟨hs, h⟩ | ⟨hs, h⟩ | ⟨hs, h⟩
    · exact Or.inl ⟨e, h⟩
    · exact Or.inr ⟨_, h, Or.inl ⟨hs, Or.inl rfl⟩⟩
    · exact Or.inr ⟨_, h, Or.inl ⟨hs, Or.inr ⟨text, ht, rfl⟩⟩⟩
    · exact Or.inr ⟨_, h, Or.inr (Or.inl ⟨hs, rfl⟩)⟩
    · exact Or.inr ⟨_, h, Or.inr (Or.inr (Or.inl ⟨hs, rfl⟩))⟩
    · exact Or.inr ⟨_, h, Or.inr (Or.inr (Or.inr (Or.inl ⟨hs, rfl⟩)))⟩
    · exact Or.inr ⟨_, h, Or.inr (Or.inr (Or.inr (Or.inr (Or.inl ⟨hs, rfl⟩))))⟩
    · exact Or.inr ⟨_, h, Or.inr (Or.inr (Or.inr (Or.inr (Or.inr ⟨hs, rfl⟩))))⟩

/-- C6: for every `POST /call` request whose body has no `to` value (missing, or the empty
string), the response has status 400 with body `error: "Missing 'to' parameter"` and the
provider's call creation is never invoked, whatever the environment holds: the check of the
destination comes before the check of the origin number. -/
theorem call_missing_destination (env : Env)
    (create : CallCreateArgs → Except JsVal CallInstance) (req : Request)
    (h : req.body "to" = .undefined ∨ req.body "to" = .str "") :
    call env create req =
      { status := 400, body := .error (.str "Missing 'to' parameter"), created := [] } := by
  unfold call
  rcases h with h | h <;> rw [h] <;> simp [JsVal.toBoolean]

/-- Witness for C6: a body without `to` with no origin number configured, and an empty `to`
with the origin number configured. -/
theorem call_missing_destination_witness :
    call (fun _ => none) sampleCreate { body := fields [], query := fields [] } =
        { status := 400, body := .error (.str "Missing 'to' parameter"), created := [] }
    ∧ call (fun k => if k = "TWILIO_NUMBER" then some "+15550100" else none) sampleCreate
          { body := fields [("to", JsVal.str "")], query := fields [] } =
        { status := 400, body := .error (.str "Missing 'to' parameter"), created := [] } :=
  ⟨call_missing_destination (fun _ => none) sampleCreate
      { body := fields [], query := fields [] } (Or.inl (by decide)),
   call_missing_destination
      (fun k => if k = "TWILIO_NUMBER" then some "+15550100" else none) sampleCreate
      { body := fields [("to", JsVal.str "")], query := fields [] } (Or.inr (by decide))⟩

/-- C7: for every `POST /call` request with a present destination `to`, if `TWILIO_NUMBER`
is absent or empty the response is status 500 with body
`error: "Server configuration error: TWILIO_NUMBER not set"` and call creation is not
invoked; call creation is invoked exactly when both `to` and the origin number are present,
and then once, with `to` and the origin number passed through unchanged. -/
theorem call_creation_guarded (env : Env)
    (create : CallCreateArgs → Except JsVal CallInstance) (req : Request) :
    (present (req.body "to") →
        (env "TWILIO_NUMBER" = none ∨ env "TWILIO_NUMBER" = some "") →
      call env create req =
        { status := 500,
          body := .error (.str "Server configuration error: TWILIO_NUMBER not set"),
          created := [] })
    ∧ ((call env create req).created ≠ [] ↔
        (present (req.body "to") ∧ ∃ n, env "TWILIO_NUMBER" = some n ∧ n ≠ ""))
    ∧ (∀ n, present (req.body "to") → env "TWILIO_NUMBER" = some n → n ≠ "" →
        (call env create req).created =
          [{ «to» := req.body "to", «from» := n,
             url := "https://unfaintly-hideless-zuri.ngrok-free.dev/outgoing-ivr" }]) := by
  have hcreated : ∀ n, present (req.body "to") → env "TWILIO_NUMBER" = some n → n ≠ "" →
      (call env create req).created =
        [{ «to» := req.body "to", «from» := n,
           url := "https://unfaintly-hideless-zuri.ngrok-free.dev/outgoing-ivr" }] := by
    intro n hp hn hne
    rw [present_iff] at hp
    unfold call
    simp only [hp, hn, hne]
    cases create _ <;> simp
  refine ⟨?_, ?_, hcreated⟩
  · intro hp hn
    rw [present_iff] at hp
    unfold call
    rcases hn with hn | hn <;> simp [hp, hn]
  · constructor
    · intro hc
      by_cases hp : present (req.body "to")
      · refine ⟨hp, ?_⟩
        cases hn : env "TWILIO_NUMBER" with
        | none =>
          exfalso; apply hc
          have hb := (present_iff _).1 hp
          unfold call; simp [hb, hn]
        | some n =>
          refine ⟨n, rfl, ?_⟩
          intro hne
          apply hc
          have hb := (present_iff _).1 hp
          unfold call; simp [hb, hn, hne]
      · exfalso; apply hc
        have hb : (req.body "to").toBoolean = false := by
          cases hv : (req.body "to").toBoolean with
          | false => rfl
          | true => exact absurd ((present_iff _).2 hv) hp
        unfold call; simp [hb]
    · rintro ⟨hp, n, hn, hne⟩
      rw [hcreated n hp hn hne]
      simp

/-- Witness for C7: a destination with no origin number configured, and the same destination
with the origin number configured. -/
theorem call_creation_guarded_witness :
    call (fun _ => none) sampleCreate
          { body := fields [("to", JsVal.str "+15550123")], query := fields [] } =
        { status := 500,
          body := .error (.str "Server configuration error: TWILIO_NUMBER not set"),
          created := [] }
    ∧ (call (fun k => if k = "TWILIO_NUMBER" then some "+15550100" else none) sampleCreate
          { body := fields [("to", JsVal.str "+15550123")], query := fields [] }).created =
        [{ «to» := .str "+15550123", «from» := "+15550100",
           url := "https://unfaintly-hideless-zuri.ngrok-free.dev/outgoing-ivr" }] :=
  ⟨(call_creation_guarded (fun _ => none) sampleCreate
      { body := fields [("to", JsVal.str "+15550123")], query := fields [] }).1
      (by decide) (Or.inl rfl),
   (call_creation_guarded
      (fun k => if k = "TWILIO_NUMBER" then some "+15550100" else none) sampleCreate
      { body := fields [("to", JsVal.str "+15550123")], query := fields [] }).2.2
      "+15550100" (by decide) (by decide) (by decide)⟩

/-- C8: the credential endpoint signs one token object and returns, next to the signed token,
exactly the identity of that object: the `identity` query parameter, unchanged, when it is
present and non-empty, and the default "user-support" when it is absent or empty. -/
theorem token_identity (env : Env) (toJwt : AccessToken → Except String String)
    (req : Request) :
    ∃ tok : AccessToken, (token env toJwt req).minted = [tok]
      ∧ (present (req.query "identity") → tok.identity = req.query "identity")
      ∧ (req.query "identity" = .undefined ∨ req.query "identity" = .str "" →
          tok.identity = .str "user-support")
      ∧ (∀ jwt, toJwt tok = .ok jwt →
          (token env toJwt req).response = some { token := jwt, identity := tok.identity })
      ∧ (∀ b, (token env toJwt req).response = some b →
          b.identity = tok.identity ∧ toJwt tok = .ok b.token) := by
  refine ⟨
    { accountSid := env "TWILIO_ACCOUNT_SID",
      keySid := env "TWILIO_API_KEY",
      secret := env "TWILIO_API_SECRET",
      identity := (req.query "identity").or (.str "user-support"),
      grants := [{ outgoingApplicationSid := env "TWILIO_TWIML_APP_SID", incomingAllow := true }] },
    ?_, ?_, ?_, ?_, ?_⟩
  · unfold token
    simp only
    split <;> rfl
  · intro hp
    rw [present_iff] at hp
    simp [JsVal.or, hp]
  · rintro (h | h) <;> simp [JsVal.or, h, JsVal.toBoolean]
  · intro jwt hj
    unfold token
    simp only [hj]
  · intro b hb
    unfold token at hb
    simp only at hb
    split at hb
    · rename_i jwt hj
      simp only [Option.some.injEq] at hb
      subst hb
      exact ⟨rfl, hj⟩
    · simp at hb

/-- Witness for C8: a request for "user-sales" and a request with no identity. -/
theorem token_identity_witness :
    (token (fun _ => some "x") sampleToJwt
        { body := fields [], query := fields [("identity", JsVal.str "user-sales")] }).response
      = some { token := "jwt:user-sales", identity := .str "user-sales" }
    ∧ (token (fun _ => some "x") sampleToJwt
        { body := fields [], query := fields [] }).response
      = some { token := "jwt:user-support", identity := .str "user-support" } := by
  constructor
  · obtain ⟨tok, _, h1, _, h3, _⟩ := token_identity (fun _ => some "x") sampleToJwt
      { body := fields [], query := fields [("identity", JsVal.str "user-sales")] }
    have e := h1 (by decide)
    have hj : sampleToJwt tok = .ok "jwt:user-sales" := by
      unfold sampleToJwt
      rw [e]
      rfl
    rw [h3 _ hj, e]
    decide
  · obtain ⟨tok, _, _, h2, h3, _⟩ := token_identity (fun _ => some "x") sampleToJwt
      { body := fields [], query := fields [] }
    have e := h2 (Or.inl (by decide))
    have hj : sampleToJwt tok = .ok "jwt:user-support" := by
      unfold sampleToJwt
      rw [e]
      rfl
    rw [h3 _ hj, e]

/-- C9: the identity the client requests when it initializes is "user-support"; the
credential endpoint mints it unchanged; it is also the endpoint's default identity; and it is
exactly the one client identity the menu handler dials for digit "1". -/
theorem identity_label_agreement (env : Env) (toJwt : AccessToken → Except String String)
    (req : Request) (h : req.body "Digits" = .str "1") :
    initializeDeviceRequest.query "identity" = .str "user-support"
    ∧ (∃ tok : AccessToken, (token env toJwt initializeDeviceRequest).minted = [tok] ∧
        tok.identity = .str "user-support")
    ∧ (∃ tok : AccessToken,
        (token env toJwt { body := fields [], query := fields [] }).minted = [tok] ∧
        tok.identity = .str "user-support")
    ∧ dialedClients (handleKey req).twiml = ["user-support"] := by
  have hq : initializeDeviceRequest.query "identity" = .str "user-support" := by decide
  refine ⟨hq, ?_, ?_, ?_⟩
  · unfold token
    simp only [hq]
    split <;> exact ⟨_, rfl, rfl⟩
  · unfold token
    simp only
    split <;> exact ⟨_, rfl, rfl⟩
  · unfold handleKey
    rw [h]
    rfl

/-- Witness for C9: the menu request with digit "1". -/
theorem identity_label_agreement_witness :
    dialedClients (handleKey
        { body := fields [("Digits", JsVal.str "1")], query := fields [] }).twiml
      = ["user-support"]
    ∧ initializeDeviceRequest.query "identity" = .str "user-support" :=
  have w := identity_label_agreement (fun _ => none) (fun _ => .ok "jwt")
    { body := fields [("Digits", JsVal.str "1")], query := fields [] } (by decide)
  ⟨w.2.2.2, w.1⟩

/-- A string of white space only trims to the empty string. -/
theorem jsTrim_whiteSpace (n : String) (h : ∀ c ∈ n.data, isStrWhiteSpaceChar c = true) :
    jsTrim n = "" := by
  unfold jsTrim
  have : n.data.dropWhile isStrWhiteSpaceChar = [] := by
    rw [List.dropWhile_eq_nil_iff]
    exact h
  rw [this]
  rfl

/-- C10: whenever the device is missing or not ready, or an active call handle is tracked, or
the destination consists of white space only, `makeCall` does nothing but raise one alert: no
request to the service and no `device.connect` is issued, and `activeCall`, `callStatus` and
the handled flag (with every other field) are unchanged. With a ready device and an active
call the alert is the one that tells a call is already active. -/
theorem makeCall_guarded (s : Client) (backendResponse : Except String Unit)
    (connected : ConnectResult)
    (h : s.device = none ∨ s.deviceReady = false ∨ s.activeCall ≠ none ∨
      (∀ c ∈ s.number.data, isStrWhiteSpaceChar c = true)) :
    ∃ message : String,
      makeCall s backendResponse connected = { s with effects := s.effects ++ [.alert message] }
      ∧ (makeCall s backendResponse connected).effects = s.effects ++ [.alert message]
      ∧ (makeCall s backendResponse connected).activeCall = s.activeCall
      ∧ (makeCall s backendResponse connected).callStatus = s.callStatus
      ∧ (makeCall s backendResponse connected).callHandled = s.callHandled
      ∧ (s.device ≠ none → s.deviceReady = true → s.activeCall ≠ none →
          message = "A call is already active. Please disconnect the current call first.") := by
  have key : ∃ message : String,
      makeCall s backendResponse connected = { s with effects := s.effects ++ [.alert message] }
      ∧ (s.device ≠ none → s.deviceReady = true → s.activeCall ≠ none →
          message = "A call is already active. Please disconnect the current call first.") := by
    unfold makeCall
    by_cases h1 : (s.device.isNone || !s.deviceReady) = true
    · refine ⟨_, by rw [if_pos h1]; rfl, ?_⟩
      intro hd hr _
      exfalso
      cases hdev : s.device with
      | none => exact hd hdev
      | some d => simp [hdev, hr] at h1
    · rw [if_neg h1]
      by_cases h2 : s.activeCall.isSome = true
      · exact ⟨_, by rw [if_pos h2]; rfl, fun _ _ _ => rfl⟩
      · rw [if_neg h2]
        have h3 : jsTrim s.number = "" := by
          rcases h with h | h | h | h
          · exfalso; apply h1; simp [h]
          · exfalso; apply h1; simp [h]
          · exfalso; apply h2
            cases ha : s.activeCall with
            | none => exact absurd ha h
            | some c => rfl
          · exact jsTrim_whiteSpace _ h
        refine ⟨_, by rw [if_pos h3]; rfl, ?_⟩
        intro _ _ ha
        exfalso; apply h2
        cases hac : s.activeCall with
        | none => exact absurd hac ha
        | some c => rfl
  obtain ⟨message, he, hm⟩ := key
  exact ⟨message, he, by rw [he], by rw [he], by rw [he], by rw [he], hm⟩

/-- Witness for C10: a second outbound call while a call is active. -/
theorem makeCall_guarded_witness :
    makeCall busyClient (.ok ()) (.call { id := 2 })
      = { busyClient with effects := [.alert
            "A call is already active. Please disconnect the current call first."] } := by
  obtain ⟨message, he, _, _, _, _, hm⟩ := makeCall_guarded busyClient
    (.ok ()) (.call { id := 2 }) (Or.inr (Or.inr (Or.inl (by decide))))
  rw [he, hm (by decide) rfl (by decide)]
  rfl

/-! ## Properties of the softphone client -/

/-- A state in which the handled flag is set is left as it is by `handleCall`. -/
theorem handleCall_of_handled (s : Client) (call : Option CallHandle)
    (h : s.callHandled = true) : handleCall s call = s := by
  unfold handleCall
  cases call with
  | none => rfl
  | some c => simp [h]

/-- What `handleCall` does to a state in which the handled flag is clear. -/
theorem handleCall_of_unhandled (s : Client) (h : CallHandle) (hf : s.callHandled = false) :
    handleCall s (some h) =
      { s with
        callHandled := true,
        activeCall := some h,
        callStatus :=
          if h.status.strictEq "open" || h.status.strictEq "connected" then "connected"
          else "ringing",
        subscriptions := s.subscriptions ++
          (if h.hasOn then
            [{ call := h.id, event := "accept", listener := .attachAccept },
             { call := h.id, event := "disconnect", listener := .attachEnd },
             { call := h.id, event := "cancel", listener := .attachEnd },
             { call := h.id, event := "reject", listener := .attachEnd },
             { call := h.id, event := "error", listener := .attachError }] ++
            (if h.status ≠ .undefined then
              [{ call := h.id, event := "disconnect", listener := .cleanupInterval s.nextTimer },
               { call := h.id, event := "cancel", listener := .cleanupInterval s.nextTimer },
               { call := h.id, event := "error", listener := .cleanupInterval s.nextTimer }]
            else [])
          else if h.hasAddEventListener then
            [{ call := h.id, event := "accept", listener := .fallbackAccept },
             { call := h.id, event := "disconnect", listener := .fallbackEnd }]
          else []),
        timers := s.timers ++
          (if h.hasOn ∧ h.status ≠ .undefined then
            [{ id := s.nextTimer, delay := 1000, repeating := true, task := .statusCheck h }]
          else []),
        nextTimer := s.nextTimer + (if h.hasOn ∧ h.status ≠ .undefined then 1 else 0) } := by
  unfold handleCall
  simp only [hf, Bool.false_eq_true, ↓reduceIte]
  by_cases hon : h.hasOn = true
  · by_cases hst : h.status = .undefined
    · simp [hon, hst, Client.subscribe]
    · simp [hon, hst, Client.subscribe, Client.setInterval]
  · by_cases hael : h.hasAddEventListener = true
    · simp [hon, hael, Client.subscribe]
    · simp [hon, hael]

/-- C12: handler attachment is idempotent: invoking `handleCall` twice in succession on the
same handle gives the same client state (active call, status label, handled flag,
subscriptions, timers) as invoking it once. The first invocation, made with the handled flag
clear, sets the flag and tracks the handle; an invocation made with the flag set changes
nothing and subscribes nothing. -/
theorem handleCall_idempotent (s : Client) (call : Option CallHandle) :
    handleCall (handleCall s call) call = handleCall s call
    ∧ (∀ h, call = some h → s.callHandled = false →
        (handleCall s call).callHandled = true ∧ (handleCall s call).activeCall = some h)
    ∧ (∀ st : Client, st.callHandled = true →
        handleCall st call = st
        ∧ (handleCall st call).subscriptions = st.subscriptions
        ∧ (handleCall st call).timers = st.timers) := by
  have hset : ∀ h, call = some h → s.callHandled = false →
      (handleCall s call).callHandled = true ∧ (handleCall s call).activeCall = some h := by
    intro h hc hf
    rw [hc, handleCall_of_unhandled s h hf]
    exact ⟨rfl, rfl⟩
  refine ⟨?_, hset, ?_⟩
  · cases hc : call with
    | none => rfl
    | some h =>
      cases hf : s.callHandled with
      | true => rw [handleCall_of_handled s _ hf, handleCall_of_handled s _ hf]
      | false =>
        apply handleCall_of_handled
        have := (hset h hc hf).1
        rw [hc] at this
        exact this
  · intro st hst
    rw [handleCall_of_handled st call hst]
    exact ⟨rfl, rfl, rfl⟩

/-- Witness for C12: attaching to a handle on an idle client, once and twice. -/
theorem handleCall_idempotent_witness :
    (handleCall {} (some { id := 1 })).callHandled = true
    ∧ (handleCall {} (some { id := 1 })).activeCall = some { id := 1 }
    ∧ handleCall (handleCall {} (some { id := 1 })) (some { id := 1 }) =
        handleCall {} (some { id := 1 }) :=
  have w := handleCall_idempotent {} (some { id := 1 })
  ⟨(w.2.1 { id := 1 } rfl rfl).1, (w.2.1 { id := 1 } rfl rfl).2, w.1⟩

/-- C11: an inbound handle delivered to the client gets a one-shot timer of 30000 ms; in any
later state in which that timer is still pending (the user neither accepted nor rejected the
call, both of which clear it), the firing of the timer invokes the reject capability of the
handle and clears the incoming state (`incomingCall = null`, `incomingCallerId = ""`,
`callStatus = ""`), whether reject returns or throws. -/
theorem autoReject_clears_incoming (s0 : Client) (h : CallHandle) (hon : h.hasOn = true) :
    (⟨s0.nextTimer, 30000, false, .autoReject h⟩ : Scheduled) ∈ (incoming s0 h).timers
    ∧ (incoming s0 h).callTimeout.lookup h.id = some s0.nextTimer
    ∧ ∀ (s : Client) (t : Scheduled) (read : Option JsVal) (rejected : Except String Unit),
        t ∈ s.timers → t.task = .autoReject h →
          (runTimer s t read rejected).effects = s.effects ++ [.callReject h.id]
          ∧ (runTimer s t read rejected).incomingCall = none
          ∧ (runTimer s t read rejected).incomingCallerId = ""
          ∧ (runTimer s t read rejected).callStatus = "" := by
  refine ⟨?_, ?_, ?_⟩
  · simp [incoming, hon, Client.setTimeout, Client.subscribe]
  · simp [incoming, hon, Client.setTimeout, Client.subscribe, List.lookup]
  · intro s t read rejected _ htask
    cases rejected <;> cases hr : t.repeating <;>
      simp [runTimer, htask, hr, Client.emit, Client.clearTimer]

/-- Witness for C11: a handle delivered to an idle client; its timer fires while reject
throws. -/
theorem autoReject_clears_incoming_witness :
    (runTimer (incoming {} { id := 1 }) ⟨1, 30000, false, .autoReject { id := 1 }⟩
        none (.error "gone")).effects = [.callReject 1]
    ∧ (runTimer (incoming {} { id := 1 }) ⟨1, 30000, false, .autoReject { id := 1 }⟩
        none (.error "gone")).incomingCall = none
    ∧ (runTimer (incoming {} { id := 1 }) ⟨1, 30000, false, .autoReject { id := 1 }⟩
        none (.error "gone")).callStatus = "" :=
  have w := autoReject_clears_incoming {} { id := 1 } rfl
  have f := w.2.2 (incoming {} { id := 1 }) ⟨1, 30000, false, .autoReject { id := 1 }⟩
    none (.error "gone") w.1 rfl
  ⟨f.1, f.2.1, f.2.2.2⟩

/-- The effects of the loop over the device calls are invocations of `disconnect` on listed
calls that have it; nothing else of the state changes. -/
theorem disconnectEach_effects (throwsOn : Effect → Bool) (calls : List CallHandle) (s : Client) :
    ∃ tried : List Effect,
      disconnectEach throwsOn s calls = { s with effects := s.effects ++ tried }
      ∧ ∀ e ∈ tried, ∃ c ∈ calls, c.hasDisconnect = true ∧ e = .callDisconnect c.id := by
  induction calls generalizing s with
  | nil => exact ⟨[], by simp [disconnectEach], by simp⟩
  | cons c rest ih =>
    unfold disconnectEach
    by_cases hc : c.hasDisconnect = true
    · simp only [hc, ↓reduceIte]
      by_cases ht : throwsOn (.callDisconnect c.id) = true
      · refine ⟨[.callDisconnect c.id], by simp [ht, Client.emit], ?_⟩
        intro e he
        simp only [List.mem_singleton] at he
        exact ⟨c, List.mem_cons_self _ _, hc, he⟩
      · obtain ⟨tried, heq, hall⟩ := ih (s.emit (.callDisconnect c.id))
        refine ⟨.callDisconnect c.id :: tried, ?_, ?_⟩
        · simp only [ht, Bool.false_eq_true, ↓reduceIte]
          rw [heq]
          simp [Client.emit]
        · intro e he
          rcases List.mem_cons.1 he with rfl | he
          · exact ⟨c, List.mem_cons_self _ _, hc, rfl⟩
          · obtain ⟨c2, hc2, h2⟩ := hall e he
            exact ⟨c2, List.mem_cons_of_mem _ hc2, h2⟩
    · simp only [hc, Bool.false_eq_true, ↓reduceIte]
      obtain ⟨tried, heq, hall⟩ := ih s
      refine ⟨tried, heq, ?_⟩
      intro e he
      obtain ⟨c2, hc2, h2⟩ := hall e he
      exact ⟨c2, List.mem_cons_of_mem _ hc2, h2⟩

/-- The capability `disconnectCall` tries: what it appends to the effects, by the order of
preference of the code. -/
theorem disconnectCall_tried (s : Client) (throwsOn : Effect → Bool) (h : CallHandle)
    (ha : s.activeCall = some h) :
    ∃ tried : List Effect,
      disconnectCall s throwsOn = endCall { s with effects := s.effects ++ tried }
      ∧ (h.hasDisconnect = true → tried = [.callDisconnect h.id])
      ∧ (h.hasDisconnect = false → h.hasHangup = true → tried = [.callHangup h.id])
      ∧ (h.hasDisconnect = false → h.hasHangup = false → h.hasReject = true →
          tried = [.callReject h.id])
      ∧ (h.hasDisconnect = false → h.hasHangup = false → h.hasReject = false →
          (s.device = none → tried = [])
          ∧ ∀ d, s.device = some d →
            (d.hasDisconnectAll = true → tried = [.deviceDisconnectAll])
            ∧ (d.hasDisconnectAll = false → d.hasDisconnect = true →
                tried = [.deviceDisconnect h.id])
            ∧ (d.hasDisconnectAll = false → d.hasDisconnect = false →
                (d.calls = none → tried = [])
                ∧ ∀ calls, d.calls = some calls →
                    ∀ e ∈ tried, ∃ c ∈ calls, c.hasDisconnect = true ∧
                      e = .callDisconnect c.id)) := by
  obtain ⟨dev, rdy, err, num, act, st, inc, cid, flag, subs, tms, nt, eff, cto⟩ := s
  simp only at ha
  subst ha
  unfold disconnectCall
  simp only
  cases h1 : h.hasDisconnect with
  | true =>
    exact ⟨[.callDisconnect h.id], by simp [h1, Client.emit], fun _ => rfl,
      fun c => by simp at c, fun c => by simp at c, fun c => by simp at c⟩
  | false =>
  cases h2 : h.hasHangup with
  | true =>
    exact ⟨[.callHangup h.id], by simp [h1, h2, Client.emit], fun c => by simp at c,
      fun _ _ => rfl, fun _ c => by simp at c, fun _ c => by simp at c⟩
  | false =>
  cases h3 : h.hasReject with
  | true =>
    exact ⟨[.callReject h.id], by simp [h1, h2, h3, Client.emit], fun c => by simp at c,
      fun _ c => by simp at c, fun _ _ _ => rfl, fun _ _ c => by simp at c⟩
  | false =>
  cases hdev : dev with
  | none =>
    exact ⟨[], by simp [h1, h2, h3, hdev], fun c => by simp at c, fun _ c => by simp at c,
      fun _ _ c => by simp at c, fun _ _ _ => ⟨fun _ => rfl, fun d c => by simp at c⟩⟩
  | some d =>
    cases d1 : d.hasDisconnectAll with
    | true =>
      refine ⟨[.deviceDisconnectAll], by simp [h1, h2, h3, hdev, d1, Client.emit],
        fun c => by simp at c, fun _ c => by simp at c, fun _ _ c => by simp at c,
        fun _ _ _ => ⟨fun c => by simp at c, ?_⟩⟩
      intro d3 hd3
      simp only [Option.some.injEq] at hd3
      subst hd3
      exact ⟨fun _ => rfl, fun c => by simp [d1] at c, fun c => by simp [d1] at c⟩
    | false =>
    cases d2 : d.hasDisconnect with
    | true =>
      refine ⟨[.deviceDisconnect h.id], by simp [h1, h2, h3, hdev, d1, d2, Client.emit],
        fun c => by simp at c, fun _ c => by simp at c, fun _ _ c => by simp at c,
        fun _ _ _ => ⟨fun c => by simp at c, ?_⟩⟩
      intro d3 hd3
      simp only [Option.some.injEq] at hd3
      subst hd3
      exact ⟨fun c => by simp [d1] at c, fun _ _ => rfl, fun _ c => by simp [d2] at c⟩
    | false =>
    cases hcalls : d.calls with
    | none =>
      refine ⟨[], by simp [h1, h2, h3, hdev, d1, d2, hcalls], fun c => by simp at c,
        fun _ c => by simp at c, fun _ _ c => by simp at c,
        fun _ _ _ => ⟨fun c => by simp at c, ?_⟩⟩
      intro d3 hd3
      simp only [Option.some.injEq] at hd3
      subst hd3
      exact ⟨fun c => by simp [d1] at c, fun _ c => by simp [d2] at c,
        fun _ _ => ⟨fun _ => rfl, fun calls c => by simp [hcalls] at c⟩⟩
    | some calls =>
      obtain ⟨tried, heq, hall⟩ := disconnectEach_effects throwsOn calls
        ⟨some d, rdy, err, num, some h, st, inc, cid, flag, subs, tms, nt, eff, cto⟩
      refine ⟨tried, by simp [h1, h2, h3, hdev, d1, d2, hcalls, heq],
        fun c => by simp at c, fun _ c => by simp at c, fun _ _ c => by simp at c,
        fun _ _ _ => ⟨fun c => by simp at c, ?_⟩⟩
      intro d3 hd3
      simp only [Option.some.injEq] at hd3
      subst hd3
      refine ⟨fun c => by simp [d1] at c, fun _ c => by simp [d2] at c,
        fun _ _ => ⟨fun c => by simp [hcalls] at c, ?_⟩⟩
      intro calls2 hc2
      rw [hcalls] at hc2
      simp only [Option.some.injEq] at hc2
      subst hc2
      exact hall

/-- The deferred clearing, whenever it runs, leaves no active call and an empty status. -/
theorem runTimer_deferredClear (st : Client) (t : Scheduled) (read : Option JsVal)
    (rejected : Except String Unit) (ht : t.task = .deferredClear) :
    (runTimer st t read rejected).activeCall = none
    ∧ (runTimer st t read rejected).callStatus = "" := by
  cases hr : t.repeating <;> simp [runTimer, ht, hr]

/-- C13: with an active handle tracked, `disconnectCall` always clears the local active-call
state: whichever capability is tried and whether it returns, is absent, or throws, the
handled flag is reset and a zero-delay callback is pending that sets `activeCall = null` and
`callStatus = ""`. At most one capability is tried, in this order of preference: the
`disconnect`, else `hangup`, else `reject` of the handle, else `disconnectAll`, else
`disconnect` of the device, else `disconnect` on the calls the device lists. -/
theorem disconnectCall_clears (s : Client) (throwsOn : Effect → Bool) (h : CallHandle)
    (ha : s.activeCall = some h) :
    (disconnectCall s throwsOn).callHandled = false
    ∧ (⟨s.nextTimer, 0, false, .deferredClear⟩ : Scheduled) ∈ (disconnectCall s throwsOn).timers
    ∧ (∀ (st : Client) (t : Scheduled) (read : Option JsVal) (rejected : Except String Unit),
        t.task = .deferredClear →
          (runTimer st t read rejected).activeCall = none
          ∧ (runTimer st t read rejected).callStatus = "")
    ∧ ∃ tried : List Effect,
      (disconnectCall s throwsOn).effects = s.effects ++ tried
      ∧ (h.hasDisconnect = true → tried = [.callDisconnect h.id])
      ∧ (h.hasDisconnect = false → h.hasHangup = true → tried = [.callHangup h.id])
      ∧ (h.hasDisconnect = false → h.hasHangup = false → h.hasReject = true →
          tried = [.callReject h.id])
      ∧ (h.hasDisconnect = false → h.hasHangup = false → h.hasReject = false →
          (s.device = none → tried = [])
          ∧ ∀ d, s.device = some d →
            (d.hasDisconnectAll = true → tried = [.deviceDisconnectAll])
            ∧ (d.hasDisconnectAll = false → d.hasDisconnect = true →
                tried = [.deviceDisconnect h.id])
            ∧ (d.hasDisconnectAll = false → d.hasDisconnect = false →
                (d.calls = none → tried = [])
                ∧ ∀ calls, d.calls = some calls →
                    ∀ e ∈ tried, ∃ c ∈ calls, c.hasDisconnect = true ∧
                      e = .callDisconnect c.id)) := by
  obtain ⟨tried, heq, hpref⟩ := disconnectCall_tried s throwsOn h ha
  refine ⟨by rw [heq]; rfl, by rw [heq]; simp [endCall, Client.setTimeout],
    runTimer_deferredClear, tried, by rw [heq]; rfl, hpref⟩

/-- Witness for C13: the active call of `busyClient` is disconnected while its `disconnect`
throws; the deferred callback then clears the state. -/
theorem disconnectCall_clears_witness :
    (disconnectCall busyClient (fun _ => true)).callHandled = false
    ∧ (disconnectCall busyClient (fun _ => true)).effects = [.callDisconnect 1]
    ∧ (runTimer (disconnectCall busyClient (fun _ => true)) ⟨1, 0, false, .deferredClear⟩
        none (.ok ())).activeCall = none
    ∧ (runTimer (disconnectCall busyClient (fun _ => true)) ⟨1, 0, false, .deferredClear⟩
        none (.ok ())).callStatus = "" := by
  have w := disconnectCall_clears busyClient (fun _ => true) { id := 1 } rfl
  obtain ⟨tried, he, h1, _⟩ := w.2.2.2
  have f := w.2.2.1 (disconnectCall busyClient (fun _ => true)) ⟨1, 0, false, .deferredClear⟩
    none (.ok ()) rfl
  refine ⟨w.1, ?_, f.1, f.2⟩
  rw [he, h1 rfl]
  rfl

/-- No listener changes the tracked active call, and none lowers the timer counter. -/
theorem runListener_keeps (st : Client) (l : Listener) (message : String) :
    (runListener st l message).activeCall = st.activeCall
    ∧ st.nextTimer ≤ (runListener st l message).nextTimer := by
  cases l <;> simp [runListener, endCall, Client.setTimeout, Client.emit, Client.clearTimer]

/-- Running a list of listeners keeps the active call and does not lower the timer counter. -/
theorem foldl_runListener_keeps (ls : List Listener) (st : Client) (message : String) :
    (ls.foldl (fun x l => runListener x l message) st).activeCall = st.activeCall
    ∧ st.nextTimer ≤ (ls.foldl (fun x l => runListener x l message) st).nextTimer := by
  induction ls generalizing st with
  | nil => exact ⟨rfl, le_refl _⟩
  | cons l rest ih =>
    simp only [List.foldl_cons]
    have h1 := runListener_keeps st l message
    have h2 := ih (runListener st l message)
    exact ⟨h2.1.trans h1.1, le_trans h1.2 h2.2⟩

/-- A pending timer stays pending while the listeners that run are not the cleanup of that
timer. -/
theorem foldl_runListener_keeps_timer (ls : List Listener) (st : Client) (message : String)
    (t : Scheduled) (ht : t ∈ st.timers) (hno : ∀ l ∈ ls, l ≠ .cleanupInterval t.id) :
    t ∈ (ls.foldl (fun x l => runListener x l message) st).timers := by
  induction ls generalizing st with
  | nil => exact ht
  | cons l rest ih =>
    simp only [List.foldl_cons]
    apply ih
    · cases l with
      | cleanupInterval k =>
        have hk : t.id ≠ k := by
          intro e
          exact hno (.cleanupInterval k) (List.mem_cons_self _ _) (by rw [e])
        simp [runListener, Client.clearTimer, ht, hk]
      | _ => simp [runListener, endCall, Client.setTimeout, Client.emit, ht]
    · intro l2 hl2
      exact hno l2 (List.mem_cons_of_mem _ hl2)

/-- The listeners of an event on a handle that `handleCall` just attached to: those that were
there before, then those of `handleCall`. -/
theorem listenersOf_handleCall (s0 : Client) (h : CallHandle) (hf : s0.callHandled = false)
    (hon : h.hasOn = true) (event : String) :
    listenersOf (handleCall s0 (some h)) h.id event =
      listenersOf s0 h.id event ++
        ((([{ call := h.id, event := "accept", listener := .attachAccept },
             { call := h.id, event := "disconnect", listener := .attachEnd },
             { call := h.id, event := "cancel", listener := .attachEnd },
             { call := h.id, event := "reject", listener := .attachEnd },
             { call := h.id, event := "error", listener := .attachError }] ++
            (if h.status ≠ .undefined then
              [{ call := h.id, event := "disconnect", listener := .cleanupInterval s0.nextTimer },
               { call := h.id, event := "cancel", listener := .cleanupInterval s0.nextTimer },
               { call := h.id, event := "error", listener := .cleanupInterval s0.nextTimer }]
            else []) : List Subscription).filter
              (fun sub => sub.call = h.id ∧ sub.event = event)).map (fun sub => sub.listener)) := by
  rw [handleCall_of_unhandled s0 h hf]
  simp [listenersOf, List.filter_append, hon]

/-- An event on a handle that `handleCall` just attached to: the listeners registered before
run first, from the state `handleCall` left, then the listeners of `handleCall`. -/
theorem fire_handleCall (s0 : Client) (h : CallHandle) (hf : s0.callHandled = false)
    (hon : h.hasOn = true) (event message : String) :
    ∃ a : Client, a.activeCall = some h ∧ s0.nextTimer ≤ a.nextTimer
      ∧ (h.status ≠ .undefined → s0.nextTimer + 1 ≤ a.nextTimer)
      ∧ fire (handleCall s0 (some h)) h.id event message =
        (((([{ call := h.id, event := "accept", listener := .attachAccept },
             { call := h.id, event := "disconnect", listener := .attachEnd },
             { call := h.id, event := "cancel", listener := .attachEnd },
             { call := h.id, event := "reject", listener := .attachEnd },
             { call := h.id, event := "error", listener := .attachError }] ++
            (if h.status ≠ .undefined then
              [{ call := h.id, event := "disconnect", listener := .cleanupInterval s0.nextTimer },
               { call := h.id, event := "cancel", listener := .cleanupInterval s0.nextTimer },
               { call := h.id, event := "error", listener := .cleanupInterval s0.nextTimer }]
            else []) : List Subscription).filter
              (fun sub => sub.call = h.id ∧ sub.event = event)).map
                (fun sub => sub.listener)).foldl (fun x l => runListener x l message) a) := by
  refine ⟨(listenersOf s0 h.id event).foldl (fun x l => runListener x l message)
    (handleCall s0 (some h)), ?_, ?_, ?_, ?_⟩
  · rw [(foldl_runListener_keeps _ _ _).1, handleCall_of_unhandled s0 h hf]
  · refine le_trans ?_ (foldl_runListener_keeps _ _ _).2
    rw [handleCall_of_unhandled s0 h hf]
    simp
  · intro hst
    refine le_trans ?_ (foldl_runListener_keeps _ _ _).2
    rw [handleCall_of_unhandled s0 h hf]
    simp [hon, hst]
  · unfold fire
    rw [listenersOf_handleCall s0 h hf hon, List.foldl_append]

/-- C15: after `handleCall` attached to a handle that has `on`, each terminal event of the
handle (disconnect, cancel, reject, error) resets the handled flag and leaves a zero-delay
callback pending that, once run, leaves the client idle (`activeCall = null`,
`callStatus = ""`); an accept event sets `callStatus = "connected"` and keeps the active
call. -/
theorem terminal_event_clears (s0 : Client) (h : CallHandle) (message : String)
    (hf : s0.callHandled = false) (hon : h.hasOn = true) :
    (∀ event ∈ ["disconnect", "cancel", "reject", "error"],
      (fire (handleCall s0 (some h)) h.id event message).callHandled = false
      ∧ ∃ t ∈ (fire (handleCall s0 (some h)) h.id event message).timers,
          t.task = .deferredClear ∧ t.delay = 0 ∧ t.repeating = false
          ∧ ∀ (st : Client) (read : Option JsVal) (rejected : Except String Unit),
              (runTimer st t read rejected).activeCall = none
              ∧ (runTimer st t read rejected).callStatus = "")
    ∧ (fire (handleCall s0 (some h)) h.id "accept" message).callStatus = "connected"
    ∧ (fire (handleCall s0 (some h)) h.id "accept" message).activeCall = some h := by
  refine ⟨?_, ?_, ?_⟩
  · intro event hev
    obtain ⟨a, _, hn, hn1, heq⟩ := fire_handleCall s0 h hf hon event message
    rw [heq]
    simp only [List.mem_cons, List.mem_singleton, List.not_mem_nil, or_false] at hev
    refine ⟨?_, ⟨a.nextTimer, 0, false, .deferredClear⟩, ?_, rfl, rfl, rfl,
      fun st read rejected => runTimer_deferredClear st _ read rejected rfl⟩
    · by_cases hst : h.status = .undefined <;> rcases hev with rfl | rfl | rfl | rfl <;>
        simp [hst, runListener, endCall, Client.setTimeout, Client.emit, Client.clearTimer]
    · by_cases hst : h.status = .undefined
      · rcases hev with rfl | rfl | rfl | rfl <;>
          simp [hst, runListener, endCall, Client.setTimeout, Client.emit]
      · have hk : a.nextTimer ≠ s0.nextTimer := by
          have := hn1 hst
          omega
        rcases hev with rfl | rfl | rfl | rfl <;>
          simp [hst, runListener, endCall, Client.setTimeout, Client.emit, Client.clearTimer, hk]
  · obtain ⟨a, _, _, _, heq⟩ := fire_handleCall s0 h hf hon "accept" message
    rw [heq]
    by_cases hst : h.status = .undefined <;> simp [hst, runListener]
  · obtain ⟨a, ha, _, _, heq⟩ := fire_handleCall s0 h hf hon "accept" message
    rw [heq]
    by_cases hst : h.status = .undefined <;> simp [hst, runListener, ha]

/-- Witness for C15: a handle attached on an idle client emits `"cancel"`, and `"accept"`. -/
theorem terminal_event_clears_witness :
    (fire (handleCall {} (some { id := 1 })) 1 "cancel" "").callHandled = false
    ∧ (fire (handleCall {} (some { id := 1 })) 1 "accept" "").callStatus = "connected" :=
  have w := terminal_event_clears {} { id := 1 } "" rfl rfl
  ⟨(w.1 "cancel" (by decide)).1, w.2.1⟩

/-- C14 fails on the code: an accepted inbound call is not tracked when the handled flag is
still set. In `callWaiting` (handle 1 attached, handle 2 pending, device ready) and in
`staleFlag` (no active call, flag left set, handle 2 pending), accepting handle 2 invokes
`accept`, and when the delayed callback has run the incoming fields are cleared but handle 2
is not the active call and `handleCall` has attached nothing to it. -/
theorem accept_not_tracked :
    (callWaiting.incomingCall = some { id := 2 } ∧ callWaiting.deviceReady = true
      ∧ callWaiting.device ≠ none ∧ callWaiting.callHandled = true
      ∧ (acceptIncomingCall callWaiting (.ok ())).effects.getLast? = some (.callAccept 2)
      ∧ (⟨2, 100, false, .acceptSettle { id := 2 }⟩ : Scheduled) ∈
          (acceptIncomingCall callWaiting (.ok ())).timers
      ∧ (runTimer (acceptIncomingCall callWaiting (.ok ()))
          ⟨2, 100, false, .acceptSettle { id := 2 }⟩ none (.ok ())).activeCall = some { id := 1 }
      ∧ (runTimer (acceptIncomingCall callWaiting (.ok ()))
          ⟨2, 100, false, .acceptSettle { id := 2 }⟩ none (.ok ())).incomingCall = none
      ∧ listenersOf (runTimer (acceptIncomingCall callWaiting (.ok ()))
          ⟨2, 100, false, .acceptSettle { id := 2 }⟩ none (.ok ())) 2 "cancel" = [])
    ∧ (staleFlag.incomingCall = some { id := 2 } ∧ staleFlag.deviceReady = true
      ∧ staleFlag.device ≠ none ∧ staleFlag.activeCall = none ∧ staleFlag.callHandled = true
      ∧ (acceptIncomingCall staleFlag (.ok ())).effects.getLast? = some (.callAccept 2)
      ∧ (⟨5, 100, false, .acceptSettle { id := 2 }⟩ : Scheduled) ∈
          (acceptIncomingCall staleFlag (.ok ())).timers
      ∧ (runTimer (acceptIncomingCall staleFlag (.ok ()))
          ⟨5, 100, false, .acceptSettle { id := 2 }⟩ none (.ok ())).activeCall = none
      ∧ (runTimer (acceptIncomingCall staleFlag (.ok ()))
          ⟨5, 100, false, .acceptSettle { id := 2 }⟩ none (.ok ())).incomingCall = none
      ∧ listenersOf (runTimer (acceptIncomingCall staleFlag (.ok ()))
          ⟨5, 100, false, .acceptSettle { id := 2 }⟩ none (.ok ())) 2 "cancel" = []) := by
  decide

/-- With an active call tracked by a ready client, `makeCall` only raises the alert that a
call is already active. -/
theorem makeCall_of_active (s : Client) (backendResponse : Except String Unit)
    (connected : ConnectResult) (ha : s.activeCall ≠ none) :
    ∃ message : String,
      makeCall s backendResponse connected = { s with effects := s.effects ++ [.alert message] } := by
  unfold makeCall
  by_cases h1 : (s.device.isNone || !s.deviceReady) = true
  · exact ⟨_, by rw [if_pos h1]; rfl⟩
  · rw [if_neg h1]
    have h2 : s.activeCall.isSome = true := by
      cases hac : s.activeCall with
      | none => exact absurd hac ha
      | some c => rfl
    exact ⟨_, by rw [if_pos h2]; rfl⟩

/-- C16, as stated, fails: an inbound handle delivered while an active call is tracked is
presented, not rejected. From `readyClient` with the outbound handle 1 attached, the delivery
of handle 2 issues no reject, stores handle 2 as the pending incoming call next to the active
call 1, and overwrites the status label "ringing" of call 1 with "incoming". -/
theorem incoming_while_active_presented :
    (makeCall readyClient (.ok ()) (.call { id := 1 })).activeCall = some { id := 1 }
    ∧ (makeCall readyClient (.ok ()) (.call { id := 1 })).callStatus = "ringing"
    ∧ callWaiting.activeCall = some { id := 1 }
    ∧ callWaiting.incomingCall = some { id := 2 }
    ∧ Effect.callReject 2 ∉ callWaiting.effects
    ∧ callWaiting.callStatus = "incoming" := by
  decide

/-- C16, amended: in every client state in which an active call handle is tracked, a second
outbound attempt is refused (one alert, nothing contacted, nothing changed); an inbound handle
delivered by the Device in such a state is not refused: no reject is issued, the handle
becomes the pending incoming call, and the tracked active call handle stays in place. -/
theorem concurrent_calls (s : Client) (h2 : CallHandle) (ha : s.activeCall ≠ none) :
    (∀ (backendResponse : Except String Unit) (connected : ConnectResult),
      ∃ message : String,
        makeCall s backendResponse connected =
          { s with effects := s.effects ++ [.alert message] })
    ∧ (incoming s h2).activeCall = s.activeCall
    ∧ (incoming s h2).incomingCall = some h2
    ∧ (incoming s h2).effects = s.effects := by
  refine ⟨fun b c => makeCall_of_active s b c ha, ?_, ?_, ?_⟩ <;>
    cases hon : h2.hasOn <;> simp [incoming, hon, Client.subscribe, Client.setTimeout]

/-- Witness for C16: the client `busyClient`, a second outbound attempt and a delivery. -/
theorem concurrent_calls_witness :
    (makeCall busyClient (.ok ()) (.call { id := 2 })).activeCall = some { id := 1 }
    ∧ (incoming busyClient { id := 2 }).activeCall = some { id := 1 }
    ∧ (incoming busyClient { id := 2 }).incomingCall = some { id := 2 } := by
  have w := concurrent_calls busyClient { id := 2 } (by decide)
  obtain ⟨message, hm⟩ := w.1 (.ok ()) (.call { id := 2 })
  refine ⟨?_, w.2.1, w.2.2.1⟩
  rw [hm]
  rfl

/-- C17 fails on the code: when an outbound call passes the guards of an idle client and
`device.connect` returns no handle, `makeCall` sets the label "ringing" with no active call,
and the effect on `[activeCall, callStatus]` that runs after the next render resets the label
to "". The handled flag stays clear, so a later device-level connect notification attaches
its handle. -/
theorem ringing_label_cleared (s : Client) (backendResponse : Except String Unit)
    (hdev : s.device ≠ none) (hready : s.deviceReady = true) (hact : s.activeCall = none)
    (hnum : jsTrim s.number ≠ "") (hst : s.callStatus = "") :
    (makeCall s backendResponse .nothing).callStatus = "ringing"
    ∧ (makeCall s backendResponse .nothing).activeCall = none
    ∧ (makeCall s backendResponse .nothing).callHandled = false
    ∧ (render s (makeCall s backendResponse .nothing)).callStatus = ""
    ∧ ∀ c : CallHandle,
        (deviceConnect (render s (makeCall s backendResponse .nothing)) (some c)).activeCall
          = some c := by
  have hd : s.device.isNone = false := by
    cases hdv : s.device with
    | none => exact absurd hdv hdev
    | some d => rfl
  have hm : makeCall s backendResponse .nothing =
      { s with
        effects := s.effects ++
          [.postCall "https://unfaintly-hideless-zuri.ngrok-free.dev/call" s.number,
           .connect s.number],
        callHandled := false,
        callStatus := "ringing" } := by
    unfold makeCall
    cases backendResponse <;> simp [hd, hready, hact, hnum, Client.emit]
  have hr : render s (makeCall s backendResponse .nothing) =
      { s with
        effects := s.effects ++
          [.postCall "https://unfaintly-hideless-zuri.ngrok-free.dev/call" s.number,
           .connect s.number],
        callHandled := false,
        callStatus := "" } := by
    rw [hm]
    simp [render, clearStatusEffect, hact, hst]
  refine ⟨by rw [hm], by rw [hm]; exact hact, by rw [hm], by rw [hr], ?_⟩
  intro c
  rw [hr]
  unfold deviceConnect
  simp only [Bool.not_false, ↓reduceIte]
  rw [handleCall_of_unhandled _ c rfl]

/-- Witness for C17: the idle client `readyClient` places an outbound call and
`device.connect` returns nothing. -/
theorem ringing_label_cleared_witness :
    (makeCall readyClient (.ok ()) .nothing).callStatus = "ringing"
    ∧ (render readyClient (makeCall readyClient (.ok ()) .nothing)).callStatus = "" :=
  have w := ringing_label_cleared readyClient (.ok ()) (by decide) rfl rfl (by decide) rfl
  ⟨w.1, w.2.2.2.1⟩

/-- C18, as stated, fails. The auto-reject timer of a delivered handle is still pending after
the handle emitted `"disconnect"` and after teardown, and it then still fires and invokes
reject; the status poll of an attached handle is still pending after the handle emitted
`"reject"` and after teardown. -/
theorem timers_survive_events :
    (⟨1, 30000, false, .autoReject { id := 1 }⟩ : Scheduled) ∈
        (fire (incoming readyClient { id := 1 }) 1 "disconnect" "").timers
    ∧ (⟨1, 30000, false, .autoReject { id := 1 }⟩ : Scheduled) ∈
        (unmount (fire (incoming readyClient { id := 1 }) 1 "disconnect" "")).timers
    ∧ Effect.callReject 1 ∈
        (runTimer (unmount (fire (incoming readyClient { id := 1 }) 1 "disconnect" ""))
          ⟨1, 30000, false, .autoReject { id := 1 }⟩ none (.ok ())).effects
    ∧ (⟨1, 1000, true, .statusCheck { id := 1, status := .str "open" }⟩ : Scheduled) ∈
        (fire polledCall 1 "reject" "").timers
    ∧ (⟨1, 1000, true, .statusCheck { id := 1, status := .str "open" }⟩ : Scheduled) ∈
        (unmount polledCall).timers := by
  decide

/-- After an event, no timer has the id that a cleanup listener run last has cleared. -/
theorem statusCheck_cleared (s0 : Client) (h : CallHandle) (message : String)
    (hf : s0.callHandled = false) (hon : h.hasOn = true) (hst : h.status ≠ .undefined) :
    ∀ event ∈ ["disconnect", "cancel", "error"],
      ∀ t ∈ (fire (handleCall s0 (some h)) h.id event message).timers, t.id ≠ s0.nextTimer := by
  intro event hev
  obtain ⟨a, _, _, _, heq⟩ := fire_handleCall s0 h hf hon event message
  rw [heq]
  simp only [List.mem_cons, List.mem_singleton, List.not_mem_nil, or_false] at hev
  rcases hev with rfl | rfl | rfl <;>
    simp [hst, runListener, endCall, Client.setTimeout, Client.emit, Client.clearTimer] <;>
    (intro t ht; rcases ht with ht | ht <;> exact ht.2)

/-- C18, amended. The status poll that `handleCall` starts for a handle is cancelled once the
handle emits `"disconnect"`, `"cancel"` or `"error"`. The liveness poll is cancelled on
teardown and by the effect that runs when the active call changes, so no liveness poll is
left once the deferred clearing after a terminal event has emptied `activeCall`. The
auto-reject timer of a delivered handle is cancelled when the user accepts or rejects the
call; an event of the handle or teardown does not cancel it (in a state whose cleanup
listeners name no timer that is yet to be created), and it then still fires and invokes
reject. -/
theorem timers_cancelled (s0 : Client) (h : CallHandle) (message : String)
    (hf : s0.callHandled = false) (hon : h.hasOn = true) :
    (h.status ≠ .undefined →
      (⟨s0.nextTimer, 1000, true, .statusCheck h⟩ : Scheduled) ∈ (handleCall s0 (some h)).timers
      ∧ ∀ event ∈ ["disconnect", "cancel", "error"],
          ∀ t ∈ (fire (handleCall s0 (some h)) h.id event message).timers,
            t.id ≠ s0.nextTimer)
    ∧ (∀ s : Client, ∀ t ∈ (unmount s).timers, t.task.isCheckCall = false)
    ∧ (∀ prev s : Client, prev.activeCall ≠ none → s.activeCall = none →
        ∀ t ∈ (render prev s).timers, t.task.isCheckCall = false)
    ∧ (s0.nextTimer ≠ 0 →
      (⟨s0.nextTimer, 30000, false, .autoReject h⟩ : Scheduled) ∈ (incoming s0 h).timers
      ∧ (s0.device ≠ none → s0.deviceReady = true → ∀ accepted : Except String Unit,
          ∀ t ∈ (acceptIncomingCall (incoming s0 h) accepted).timers, t.id ≠ s0.nextTimer)
      ∧ (∀ rejected : Except String Unit,
          ∀ t ∈ (rejectIncomingCall (incoming s0 h) rejected).timers, t.id ≠ s0.nextTimer))
    ∧ ((∀ sub ∈ s0.subscriptions, sub.listener ≠ .cleanupInterval s0.nextTimer) →
      ∀ event : String,
        (⟨s0.nextTimer, 30000, false, .autoReject h⟩ : Scheduled) ∈
            (fire (incoming s0 h) h.id event message).timers
        ∧ (⟨s0.nextTimer, 30000, false, .autoReject h⟩ : Scheduled) ∈
            (unmount (fire (incoming s0 h) h.id event message)).timers
        ∧ (⟨s0.nextTimer, 30000, false, .autoReject h⟩ : Scheduled) ∈
            (unmount (incoming s0 h)).timers
        ∧ ∀ (st : Client) (read : Option JsVal) (rejected : Except String Unit),
            (runTimer st ⟨s0.nextTimer, 30000, false, .autoReject h⟩ read rejected).effects =
              st.effects ++ [.callReject h.id]) := by
  refine ⟨?_, ?_, ?_, ?_, ?_⟩
  rotate_left 4
  · intro hwf event
    have hmem : (⟨s0.nextTimer, 30000, false, .autoReject h⟩ : Scheduled) ∈
        (incoming s0 h).timers := by
      simp [incoming, hon, Client.setTimeout, Client.subscribe]
    have hfire : (⟨s0.nextTimer, 30000, false, .autoReject h⟩ : Scheduled) ∈
        (fire (incoming s0 h) h.id event message).timers := by
      unfold fire
      apply foldl_runListener_keeps_timer _ _ _ _ hmem
      intro l hl
      unfold listenersOf at hl
      simp only [List.mem_map, List.mem_filter] at hl
      obtain ⟨sub, ⟨hsub, _⟩, rfl⟩ := hl
      have hsubs : (incoming s0 h).subscriptions = s0.subscriptions ++
          [{ call := h.id, event := "accept", listener := .incomingAccept },
           { call := h.id, event := "disconnect", listener := .incomingEnd },
           { call := h.id, event := "error", listener := .incomingError }] := by
        simp [incoming, hon, Client.setTimeout, Client.subscribe]
      rw [hsubs] at hsub
      simp only [List.mem_append, List.mem_cons, List.mem_singleton, List.not_mem_nil,
        or_false] at hsub
      rcases hsub with hsub | rfl | rfl | rfl
      · exact hwf sub hsub
      · simp
      · simp
      · simp
    have hun : ∀ s : Client, (⟨s0.nextTimer, 30000, false, .autoReject h⟩ : Scheduled) ∈ s.timers →
        (⟨s0.nextTimer, 30000, false, .autoReject h⟩ : Scheduled) ∈ (unmount s).timers := by
      intro s hs
      unfold unmount
      simp only [List.mem_filter]
      refine ⟨?_, rfl⟩
      cases s.device <;> exact hs
    refine ⟨hfire, hun _ hfire, hun _ hmem, ?_⟩
    intro st read rejected
    cases rejected <;> simp [runTimer, Client.emit, Client.clearTimer]
  · intro hst
    refine ⟨?_, statusCheck_cleared s0 h message hf hon hst⟩
    rw [handleCall_of_unhandled s0 h hf]
    simp [hon, hst]
  · intro s t ht
    unfold unmount at ht
    simp only [List.mem_filter] at ht
    simpa using ht.2
  · intro prev s hp hs t ht
    have hne : ¬ s.activeCall = prev.activeCall := by
      rw [hs]
      exact fun e => hp e.symm
    unfold render at ht
    simp only [hne, ↓reduceIte, false_and] at ht
    have hcc : (checkCallEffect s).timers = s.timers.filter (fun t => !t.task.isCheckCall) := by
      simp [checkCallEffect, hs]
    have hces : (clearStatusEffect (checkCallEffect s)).timers = (checkCallEffect s).timers := by
      unfold clearStatusEffect
      split <;> rfl
    split at ht
    · rw [hcc, List.mem_filter] at ht
      simpa using ht.2
    · rw [hces, hcc, List.mem_filter] at ht
      simpa using ht.2
  · intro hn
    have hlook : (incoming s0 h).callTimeout.lookup h.id = some s0.nextTimer := by
      simp [incoming, hon, Client.setTimeout, Client.subscribe, List.lookup]
    have hinc : (incoming s0 h).incomingCall = some h := by
      simp [incoming, hon, Client.setTimeout, Client.subscribe]
    have hclear : ∀ t ∈ (clearCallTimeout (incoming s0 h) h).timers, t.id ≠ s0.nextTimer := by
      intro t ht
      unfold clearCallTimeout at ht
      simp only [hlook, ne_eq, hn, not_false_eq_true, ↓reduceIte] at ht
      unfold Client.clearTimer at ht
      simp only [List.mem_filter] at ht
      simpa using ht.2
    have hnext : (clearCallTimeout (incoming s0 h) h).nextTimer = s0.nextTimer + 1 := by
      unfold clearCallTimeout
      simp only [hlook, ne_eq, hn, not_false_eq_true, ↓reduceIte]
      simp [incoming, hon, Client.setTimeout, Client.subscribe, Client.clearTimer]
    refine ⟨?_, ?_, ?_⟩
    · simp [incoming, hon, Client.setTimeout, Client.subscribe]
    · intro hdev hready accepted t ht
      have hdres : (incoming s0 h).device.isNone = false := by
        have : (incoming s0 h).device = s0.device := by
          simp [incoming, hon, Client.setTimeout, Client.subscribe]
        rw [this]
        cases hd : s0.device with
        | none => exact absurd hd hdev
        | some d => rfl
      have hrres : (incoming s0 h).deviceReady = true := by
        have : (incoming s0 h).deviceReady = s0.deviceReady := by
          simp [incoming, hon, Client.setTimeout, Client.subscribe]
        rw [this, hready]
      unfold acceptIncomingCall at ht
      simp only [hinc, hdres, hrres, Bool.not_true, Bool.or_self, Bool.false_eq_true,
        ↓reduceIte] at ht
      cases accepted with
      | ok u =>
        simp only [Client.setTimeout, Client.emit, List.mem_append, List.mem_singleton] at ht
        rcases ht with ht | ht
        · exact hclear t ht
        · rw [ht]
          simp only [hnext]
          omega
      | error m =>
        simp only [Client.emit] at ht
        exact hclear t ht
    · intro rejected t ht
      unfold rejectIncomingCall at ht
      simp only [hinc] at ht
      cases rejected <;> simp only [Client.emit] at ht <;> exact hclear t ht

/-- Witness for C18: the status poll of `polledCall` is gone after `"disconnect"`, the
auto-reject timer of a delivered handle is gone after the user accepted, and it is still
pending after the handle emitted `"error"`. -/
theorem timers_cancelled_witness :
    (fire polledCall 1 "disconnect" "").timers.filter (fun t => t.id = 1) = []
    ∧ (acceptIncomingCall (incoming readyClient { id := 1 }) (.ok ())).timers.filter
        (fun t => t.id = 1) = []
    ∧ (⟨1, 30000, false, .autoReject { id := 1 }⟩ : Scheduled) ∈
        (fire (incoming readyClient { id := 1 }) 1 "error" "").timers := by
  have w := timers_cancelled readyClient { id := 1, status := .str "open" } "" rfl rfl
  have w2 := timers_cancelled readyClient { id := 1 } "" rfl rfl
  refine ⟨?_, ?_, ?_⟩
  · rw [List.filter_eq_nil_iff]
    intro t ht
    have := (w.1 (by decide)).2 "disconnect" (by decide) t ht
    simpa using this
  · rw [List.filter_eq_nil_iff]
    intro t ht
    have := (w2.2.2.2.1 (by decide)).2.1 (by decide) rfl (.ok ()) t ht
    simpa using this
  · exact (w2.2.2.2.2 (by decide) "error").1

/-- C19, as stated, fails: for the inbound handle 1 that was delivered and then accepted
(`acceptedInbound`), each of the events accept, disconnect and error has two state-changing
subscribers, and one `"disconnect"` event runs both: it leaves two deferred clearings
pending. -/
theorem accepted_inbound_two_subscribers :
    ((listenersOf acceptedInbound 1 "accept").filter Listener.changesState).length = 2
    ∧ ((listenersOf acceptedInbound 1 "disconnect").filter Listener.changesState).length = 2
    ∧ ((listenersOf acceptedInbound 1 "error").filter Listener.changesState).length = 2
    ∧ ((fire acceptedInbound 1 "disconnect" "").timers.filter
        (fun t => t.task = .deferredClear)).length = 2 := by
  decide

/-- No listener is registered on a handle that no subscription names. -/
theorem listenersOf_fresh (s : Client) (call : Nat) (event : String)
    (hfresh : ∀ sub ∈ s.subscriptions, sub.call ≠ call) : listenersOf s call event = [] := by
  unfold listenersOf
  rw [List.map_eq_nil_iff, List.filter_eq_nil_iff]
  intro sub hsub
  simp [hfresh sub hsub]

/-- C19, amended: for a handle with `on` and no earlier subscription. When `handleCall`
attaches to it with the handled flag clear (the outbound case), each of its accept, disconnect
and error events has exactly one state-changing subscriber. When the Device delivers it to a
ready client, the user accepts it and the delayed callback of the accept runs, with nothing
else in between, each of these events then has exactly two state-changing subscribers if the
handled flag was clear (one registered at delivery and one by `handleCall`, which perform the
same update), and exactly one, the one registered at delivery, if the handled flag was set. -/
theorem subscribers_per_event (s0 : Client) (h : CallHandle) (hon : h.hasOn = true)
    (hfresh : ∀ sub ∈ s0.subscriptions, sub.call ≠ h.id) :
    (s0.callHandled = false → ∀ event ∈ ["accept", "disconnect", "error"],
      ((listenersOf (handleCall s0 (some h)) h.id event).filter
        Listener.changesState).length = 1)
    ∧ (s0.device ≠ none → s0.deviceReady = true →
        (⟨s0.nextTimer + 1, 100, false, .acceptSettle h⟩ : Scheduled) ∈
            (acceptIncomingCall (incoming s0 h) (.ok ())).timers
        ∧ ∀ event ∈ ["accept", "disconnect", "error"],
          ∀ (read : Option JsVal) (rejected : Except String Unit),
            (s0.callHandled = false →
              ((listenersOf
                (runTimer (acceptIncomingCall (incoming s0 h) (.ok ()))
                  ⟨s0.nextTimer + 1, 100, false, .acceptSettle h⟩ read rejected)
                h.id event).filter Listener.changesState).length = 2)
            ∧ (s0.callHandled = true →
              ((listenersOf
                (runTimer (acceptIncomingCall (incoming s0 h) (.ok ()))
                  ⟨s0.nextTimer + 1, 100, false, .acceptSettle h⟩ read rejected)
                h.id event).filter Listener.changesState).length = 1))
    ∧ (∀ (st : Client) (message : String),
        runListener st .incomingAccept message = runListener st .attachAccept message
        ∧ runListener st .incomingEnd message = runListener st .attachEnd message
        ∧ runListener st .incomingError message = runListener st .attachError message) := by
  refine ⟨?_, ?_, fun st message => ⟨rfl, rfl, rfl⟩⟩
  · intro hf event hev
    rw [listenersOf_handleCall s0 h hf hon, listenersOf_fresh s0 h.id event hfresh]
    simp only [List.mem_cons, List.mem_singleton, List.not_mem_nil, or_false] at hev
    by_cases hst : h.status = .undefined <;> rcases hev with rfl | rfl | rfl <;>
      simp [hst, Listener.changesState]
  · intro hdev hready
    have hd : s0.device.isNone = false := by
      cases hdv : s0.device with
      | none => exact absurd hdv hdev
      | some d => rfl
    have hinc : (incoming s0 h).incomingCall = some h := by
      simp [incoming, hon, Client.setTimeout, Client.subscribe]
    have hdres : (incoming s0 h).device.isNone = false := by
      have : (incoming s0 h).device = s0.device := by
        simp [incoming, hon, Client.setTimeout, Client.subscribe]
      rw [this, hd]
    have hrres : (incoming s0 h).deviceReady = true := by
      have : (incoming s0 h).deviceReady = s0.deviceReady := by
        simp [incoming, hon, Client.setTimeout, Client.subscribe]
      rw [this, hready]
    have hcf : (clearCallTimeout (incoming s0 h) h).callHandled = s0.callHandled := by
      unfold clearCallTimeout
      split
      · split <;> simp [incoming, hon, Client.setTimeout, Client.subscribe, Client.clearTimer]
      · simp [incoming, hon, Client.setTimeout, Client.subscribe]
    have hcn : (clearCallTimeout (incoming s0 h) h).nextTimer = s0.nextTimer + 1 := by
      unfold clearCallTimeout
      split
      · split <;> simp [incoming, hon, Client.setTimeout, Client.subscribe, Client.clearTimer]
      · simp [incoming, hon, Client.setTimeout, Client.subscribe]
    have hcs : (clearCallTimeout (incoming s0 h) h).subscriptions = s0.subscriptions ++
          [{ call := h.id, event := "accept", listener := .incomingAccept },
           { call := h.id, event := "disconnect", listener := .incomingEnd },
           { call := h.id, event := "error", listener := .incomingError }] := by
      unfold clearCallTimeout
      split
      · split <;> simp [incoming, hon, Client.setTimeout, Client.subscribe, Client.clearTimer]
      · simp [incoming, hon, Client.setTimeout, Client.subscribe]
    have hacc : acceptIncomingCall (incoming s0 h) (.ok ()) =
        ((clearCallTimeout (incoming s0 h) h).emit (.callAccept h.id)).setTimeout
          (.acceptSettle h) 100 := by
      unfold acceptIncomingCall
      simp [hinc, hdres, hrres]
    have haf : ((acceptIncomingCall (incoming s0 h) (.ok ())).clearTimer
        (s0.nextTimer + 1)).callHandled = s0.callHandled := by
      rw [hacc]
      simp [Client.clearTimer, Client.setTimeout, Client.emit, hcf]
    have hasub : ((acceptIncomingCall (incoming s0 h) (.ok ())).clearTimer
        (s0.nextTimer + 1)).subscriptions = s0.subscriptions ++
          [{ call := h.id, event := "accept", listener := .incomingAccept },
           { call := h.id, event := "disconnect", listener := .incomingEnd },
           { call := h.id, event := "error", listener := .incomingError }] := by
      rw [hacc]
      simp [Client.clearTimer, Client.setTimeout, Client.emit, hcs]
    refine ⟨?_, ?_⟩
    · rw [hacc]
      simp [Client.setTimeout, Client.emit, hcn]
    intro event hev read rejected
    have hold : listenersOf s0 h.id event = [] := listenersOf_fresh s0 h.id event hfresh
    unfold listenersOf at hold
    simp only [List.map_eq_nil_iff] at hold
    have hrun : runTimer (acceptIncomingCall (incoming s0 h) (.ok ()))
          ⟨s0.nextTimer + 1, 100, false, .acceptSettle h⟩ read rejected =
        { handleCall ((acceptIncomingCall (incoming s0 h) (.ok ())).clearTimer (s0.nextTimer + 1))
            (some h) with incomingCall := none, incomingCallerId := "" } := by
      simp only [runTimer, Bool.false_eq_true, ↓reduceIte]
    have hl : ∀ x : Client, listenersOf { x with incomingCall := none, incomingCallerId := "" }
        h.id event = listenersOf x h.id event := fun _ => rfl
    have hlA : listenersOf ((acceptIncomingCall (incoming s0 h) (.ok ())).clearTimer
        (s0.nextTimer + 1)) h.id event =
        (([{ call := h.id, event := "accept", listener := .incomingAccept },
           { call := h.id, event := "disconnect", listener := .incomingEnd },
           { call := h.id, event := "error", listener := .incomingError }] :
            List Subscription).filter
              (fun sub => sub.call = h.id ∧ sub.event = event)).map (fun sub => sub.listener) := by
      unfold listenersOf
      rw [hasub, List.filter_append, hold, List.nil_append]
    simp only [List.mem_cons, List.mem_singleton, List.not_mem_nil, or_false] at hev
    rw [hrun, hl]
    constructor
    · intro hf
      rw [listenersOf_handleCall _ h (haf.trans hf) hon, hlA]
      by_cases hst : h.status = .undefined <;> rcases hev with rfl | rfl | rfl <;>
        simp [hst, Listener.changesState]
    · intro hf
      rw [handleCall_of_handled _ _ (haf.trans hf), hlA]
      rcases hev with rfl | rfl | rfl <;> simp [Listener.changesState]

/-- Witness for C19: a handle attached on the idle client `readyClient`; the handle 2 of
`callWaiting`, accepted while the handled flag is set; and the accepted handle 1 of
`acceptedInbound`. -/
theorem subscribers_per_event_witness :
    ((listenersOf (handleCall readyClient (some { id := 1 })) 1 "disconnect").filter
      Listener.changesState).length = 1
    ∧ ((listenersOf
        (runTimer (acceptIncomingCall callWaiting (.ok ()))
          ⟨2, 100, false, .acceptSettle { id := 2 }⟩ none (.ok ()))
        2 "disconnect").filter Listener.changesState).length = 1
    ∧ ((listenersOf acceptedInbound 1 "error").filter Listener.changesState).length = 2 :=
  ⟨(subscribers_per_event readyClient { id := 1 } rfl (by decide)).1 rfl
      "disconnect" (by decide),
   (((subscribers_per_event (makeCall readyClient (.ok ()) (.call { id := 1 })) { id := 2 } rfl
      (by decide)).2.1 (by decide) rfl).2 "disconnect" (by decide) none (.ok ())).2 rfl,
   (((subscribers_per_event readyClient { id := 1 } rfl
      (by decide)).2.1 (by decide) rfl).2 "error" (by decide) none (.ok ())).1 rfl⟩

/-- The two polls agree on every status value other than "ended". -/
theorem polls_agree_elsewhere (v : JsVal) (hv : v ≠ .str "ended") :
    statusCheckEnded v = checkCallEnded v := by
  cases v with
  | undefined => rfl
  | other t x => rfl
  | str x =>
    have : x ≠ "ended" := fun e => hv (by rw [e])
    simp [statusCheckEnded, checkCallEnded, JsVal.strictEq, this]

/-- C20 fails on the code: the status value "ended" is terminal for the liveness poll and not
for the status poll of `handleCall`. On `polledCall` after its render, where both polls are
pending, a run of the status poll that reads "ended" changes nothing, while a run of the
liveness poll that reads "ended" clears its interval, resets the handled flag and schedules
the clearing of the active call. -/
theorem polls_disagree_on_ended :
    statusCheckEnded (.str "ended") = false
    ∧ checkCallEnded (.str "ended") = true
    ∧ (render readyClient polledCall).timers =
        [⟨1, 1000, true, .statusCheck { id := 1, status := .str "open" }⟩,
         ⟨2, 500, true, .checkCall { id := 1, status := .str "open" }⟩]
    ∧ runTimer (render readyClient polledCall)
          ⟨1, 1000, true, .statusCheck { id := 1, status := .str "open" }⟩
          (some (.str "ended")) (.ok ()) = render readyClient polledCall
    ∧ runTimer (render readyClient polledCall)
          ⟨2, 500, true, .checkCall { id := 1, status := .str "open" }⟩
          (some (.str "ended")) (.ok ()) =
        endCall ((render readyClient polledCall).clearTimer 2)
    ∧ (render readyClient polledCall).callHandled = true
    ∧ (endCall ((render readyClient polledCall).clearTimer 2)).callHandled = false := by
  decide

end CallApp
